import Mathlib

/-!
td_engine: session lifecycle and message relay.

A shallow embedding of the voice handler (`lib/routes/llm-streaming.js`) and of the
chat handler (`lib/routes/chat-streaming.js`).

Conventions of the embedding.
* `Date` values are integers (milliseconds since the epoch); `new Date()` is a clock
  reading passed in as a parameter.
* JavaScript strings are `String`; whole-second durations are integers; the quotient
  that `toFixed` prints is the double nearest to the exact quotient, kept as a fraction.
* Asynchronous results (webhook response, storage response) are parameters of the
  handler that awaits them; the handler returns the new state and the list of the
  outbound actions it performed, in order.
-/

namespace TdEngine

/-! ## Duration formatting (`onClose`, llm-streaming.js 225-232) -/

/-- Decimal digit character of a number below ten. -/
def digitChar (d : Nat) : Char := Char.ofNat (48 + d % 10)

/-- Rounding of the quotient `a / b` to the nearest whole number, a tie going to the
even one: the rounding of double-precision arithmetic. -/
def roundHalfEven (a b : Nat) : Nat :=
  if 2 * (a % b) < b then a / b
  else if b < 2 * (a % b) then a / b + 1
  else if (a / b) % 2 = 0 then a / b
  else a / b + 1

/-- The binary exponent of a whole number `q ≥ 1`: the `k` with `2^k ≤ q < 2^(k+1)`.
The first argument bounds the recursion; `q` itself is enough. -/
def binaryExponent : Nat → Nat → Nat
  | 0, _ => 0
  | fuel + 1, q => if q < 2 then 0 else binaryExponent fuel (q / 2) + 1

/-- The double-precision quotient `num / den` of two whole numbers that are doubles
themselves, for a quotient of at least 1: the exact quotient rounded to 53 significant
bits, ties to even. The double is returned as a fraction, numerator and denominator:
with `2^k ≤ num / den < 2^(k+1)` its last bit is worth `2^(k-52)`. -/
def divideDoubles (num den : Nat) : Nat × Nat :=
  let k := binaryExponent (num / den) (num / den)
  if k ≤ 52 then (roundHalfEven (num * 2 ^ (52 - k)) den, 2 ^ (52 - k))
  else (roundHalfEven num (den * 2 ^ (k - 52)) * 2 ^ (k - 52), 1)

/-- The double nearest to a whole number `y ≥ 1`. -/
def toDouble (y : Nat) : Nat := (divideDoubles y 1).1 / (divideDoubles y 1).2

/-- The numeral with two decimals of `n` hundredths. -/
def fixedText (n : Nat) : String :=
  toString (n / 100) ++ "." ++ String.mk [digitChar (n % 100 / 10), digitChar (n % 10)]

/-- The number `n` of hundredths for which `n / 100` is closest to the double `x`, the
larger one on a tie: the `n` that `Number.prototype.toFixed(2)` prints. -/
def hundredths (x : Nat × Nat) : Nat := (200 * x.1 + x.2) / (2 * x.2)

/-- The number of decimal digits of a whole number. -/
def decimalLength (n : Nat) : Nat := (Nat.toDigits 10 n).length

/-- The distance between two whole numbers. -/
def gap (a b : Nat) : Nat := (a - b) + (b - a)

/-- The `k`-digit decimal `s` with `s * 10^(n-k)` having `x` as its nearest double,
when there is one, with the exponent `n`; of two such decimals the one closer to `x`,
the even one on a tie. `x` is a whole number that is a double. -/
def digitsOfLength (x k : Nat) : Option (Nat × Nat) :=
  let n := decimalLength x
  let scale := 10 ^ (n - k)
  let lo := x / scale
  let hi := lo + 1
  let okLo := decide (toDouble (lo * scale) = x)
  let okHi := decide (toDouble (hi * scale) = x)
  let pick : Option Nat :=
    if okLo && okHi then
      (if gap (lo * scale) x < gap (hi * scale) x then some lo
       else if gap (hi * scale) x < gap (lo * scale) x then some hi
       else if lo % 2 = 0 then some lo
       else some hi)
    else if okLo then some lo
    else if okHi then some hi
    else none
  match pick with
  | none => none
  | some s => if s = 10 ^ k then some (10 ^ (k - 1), n + 1) else some (s, n)

/-- The shortest decimal that has the double `x` as its nearest double, searched from
`k` digits on (a double needs 17 digits at most), with its exponent. -/
def shortestDigits (x : Nat) : Nat → Nat → Nat × Nat
  | 0, k => (x / 10 ^ (decimalLength x - k), decimalLength x)
  | fuel + 1, k =>
    match digitsOfLength x k with
    | some r => r
    | none => shortestDigits x fuel (k + 1)

/-- The text of a double `x ≥ 10^21`, a whole number, as the language prints it: the
shortest digits that determine it, a point after the first digit, and the exponent. -/
def exponentText (x : Nat) : String :=
  match Nat.toDigits 10 (shortestDigits x 17 1).1 with
  | [] => ""
  | [c] => String.mk [c] ++ "e+" ++ toString ((shortestDigits x 17 1).2 - 1)
  | c :: rest =>
    String.mk (c :: '.' :: rest) ++ "e+" ++ toString ((shortestDigits x 17 1).2 - 1)

/-- The text `(num / den).toFixed(2)` for whole numbers with `num ≥ den`: the quotient is
the double `divideDoubles num den`; below `10^21` it is printed as its closest number
of hundredths with two decimals, and from `10^21` on as `toFixed` falls back to the
plain text of the number, in exponent form. -/
def toFixed2 (num den : Nat) : String :=
  if (divideDoubles num den).1 < 10 ^ 21 * (divideDoubles num den).2 then
    fixedText (hundredths (divideDoubles num den))
  else exponentText (divideDoubles num den).1

/-- The formatted duration of llm-streaming.js 226-232:
`if (totalDurationSeconds < 60) durationDisplay = totalDurationSeconds + "s"`, else
`(totalDurationSeconds / 60).toFixed(2) + "m"`. -/
def durationDisplay (totalDurationSeconds : Int) : String :=
  if totalDurationSeconds < 60 then
    toString totalDurationSeconds ++ "s"
  else
    toFixed2 totalDurationSeconds.toNat 60 ++ "m"

/-! ## JavaScript helpers -/

/-- The value of `a || b` where `a` is an optional string: a missing field (`undefined`)
and the empty string are falsy. -/
def jsOr (a : Option String) (b : String) : String :=
  match a with
  | some x => if x = "" then b else x
  | none => b

/-- Truthiness of an optional string field. -/
def truthy (a : Option String) : Bool :=
  match a with
  | some x => !(x = "")
  | none => false

/-- The value of `a || b` on optional strings when `b` may be missing as well. -/
def jsOrOpt (a b : Option String) : Option String :=
  if truthy a then a else b

/-- `String.prototype.split(' ')` on a list of characters: a new (possibly empty) word
starts after every single space. -/
def splitSpaces : List Char → List (List Char)
  | [] => [[]]
  | c :: cs =>
    if c = ' ' then [] :: splitSpaces cs
    else
      match splitSpaces cs with
      | [] => [[c]]
      | w :: ws => (c :: w) :: ws

/-- `s.split(' ')`. -/
def split (s : String) : List String := (splitSpaces s.data).map String.mk

/-- `words.join(' ')`. -/
def join (words : List String) : String := " ".intercalate words

/-! ## Voice sessions (llm-streaming.js) -/

/-- Role of an entry of `session.locals.messages`. -/
inductive Role
  | user
  | assistant
deriving DecidableEq, Repr

/-- An entry of `session.locals.messages`: `{role, content}`. -/
structure Message where
  role : Role
  content : String
deriving DecidableEq, Repr

/-- The body `response.data` of a webhook response, as far as the handlers read it:
the four fields tried in turn and `JSON.stringify(response.data)`. A field that is
absent is `none`. -/
structure ResponseData where
  reply : Option String
  message : Option String
  text : Option String
  response : Option String
  json : String
deriving DecidableEq, Repr

/-- Result of awaiting `axios.post` on the webhook: the promise rejects (network
error, error status, timeout), or it resolves with a body, `none` being a `null` body. -/
inductive WebhookOutcome
  | failed
  | responded (data : Option ResponseData)
deriving DecidableEq, Repr

/-- The object `session.locals` (llm-streaming.js 17-25), with the `user_interrupt`
flag and the `conversation_id` that handlers add later. -/
structure Locals where
  sessionId : String
  messages : List Message
  assistantResponse : String
  startTime : Int
  answeredAt : Option Int
  endTime : Option Int
  user_interrupt : Bool
  conversation_id : Option String
deriving DecidableEq, Repr

/-- The `speech` member of a `/speech-detected` event: the finality flag and the
transcripts of `alternatives`, in order; a missing `alternatives` is the empty list
(reading its first element throws in both cases, llm-streaming.js 95). -/
structure Speech where
  is_final : Bool
  alternatives : List String
deriving DecidableEq, Repr

/-- Type tag of an event of the conversation record. -/
inductive EventType
  | user_input
  | agent_response
deriving DecidableEq, Repr

/-- An element of `conversationData.events` (llm-streaming.js 279-284). -/
structure RecordEvent where
  type : EventType
  user_transcript : Option String
  agent_response : Option String
  timestamp : Int
deriving DecidableEq, Repr

/-- The member `conversationData.summary` (llm-streaming.js 269-278). -/
structure RecordSummary where
  from_ : String
  to_ : String
  duration_minutes : String
  answered : Bool
  direction : String
  attempted_at : Int
  answered_at : Option Int
  terminated_at : Int
deriving DecidableEq, Repr

/-- The object `conversationData` built by `onClose` (llm-streaming.js 265-285). -/
structure ConversationData where
  call_sid : String
  application_sid : Option String
  account_sid : Option String
  summary : RecordSummary
  events : List RecordEvent
deriving DecidableEq, Repr

/-- A message in the shape `summarizeConversation` reads: `{sender, message}`; a field
the caller did not set is `none` (`undefined`). -/
structure SummarizerMessage where
  sender : Option String
  message : Option String
deriving DecidableEq, Repr

/-- Outbound actions of the voice handlers, in the order they are issued. -/
inductive HostAction
  | reply
  | webhookPost (message sessionId : String)
  | sendTtsTokens (tokens : String)
  | flushTtsTokens
  | reportPost (data : ConversationData)
  | summarize (messages : List SummarizerMessage)
  | updateConversationSummary (conversationId summary : String)
deriving DecidableEq, Repr

/-- The session object handed over by the telephony host, with the fields the
handlers read. `duration` is the host-provided call duration in seconds. -/
structure Session where
  call_sid : String
  application_sid : Option String
  account_sid : Option String
  from_ : Option String
  to_ : Option String
  calling_number : Option String
  called_number : Option String
  duration : Option ℚ
  locals : Locals

/-- The locals set up by the `session:new` handler (llm-streaming.js 17-25). -/
def newLocals (call_sid : String) (now : Int) : Locals :=
  { sessionId := call_sid
    messages := []
    assistantResponse := ""
    startTime := now
    answeredAt := none
    endTime := none
    user_interrupt := false
    conversation_id := none }

/-- The handler `onUserInterrupt` (llm-streaming.js 177-181). -/
def onUserInterrupt (l : Locals) : Locals := { l with user_interrupt := true }

/-- The expression `response.data.reply || response.data.message || response.data.text
|| response.data.response || JSON.stringify(response.data)` (llm-streaming.js 126). -/
def responseText (d : ResponseData) : String :=
  jsOr d.reply (jsOr d.message (jsOr d.text (jsOr d.response d.json)))

/-- The constant `chunkSize` (llm-streaming.js 135). -/
def chunkSize : Nat := 5

/-- The sentence spoken by the `catch` branch (llm-streaming.js 168). -/
def errorSentence : String :=
  "I\x27m sorry, I encountered an error processing your request. Please try again."

/-- What a suspension of a handler does to the locals: `onUserInterrupt` runs during
it when `raised` holds, and nothing else touches them. -/
def interruptDuring (raised : Bool) (l : Locals) : Locals :=
  if raised then onUserInterrupt l else l

/-- The `for` loop of llm-streaming.js 137-154, started at index `i`.

`interruptAfter = some k` says that `onUserInterrupt` runs while the handler is
suspended after the `k`-th chunk was handed to the host (`k = 0`: while it awaits the
webhook); `none` says it does not run during this utterance. The flag is only ever
raised during an utterance, so the first raise decides every later check.
The first argument bounds the number of iterations; `words.length` is enough, as
every iteration advances `i` by `chunkSize`. -/
def deliver (words : List String) (interruptAfter : Option Nat) :
    Nat → Nat → Locals → List HostAction → Locals × List HostAction
  | 0, _, l, out => (l, out)
  | fuel + 1, i, l, out =>
    if i < words.length then
      if l.user_interrupt then
        ({ l with
            messages := l.messages ++ [⟨Role.assistant, l.assistantResponse ++ "..."⟩]
            assistantResponse := "" }, out)
      else
        let chunk := join ((words.drop i).take chunkSize) ++ " "
        let l1 := interruptDuring (decide (interruptAfter = some (i / chunkSize + 1))) l
        deliver words interruptAfter fuel (i + chunkSize) l1
          (out ++ [HostAction.sendTtsTokens chunk])
    else (l, out)

/-- The `try` body after the webhook answered with body `d` (llm-streaming.js 126-165). -/
def deliverResponse (d : ResponseData) (interruptAfter : Option Nat) (l : Locals)
    (out : List HostAction) : Locals × List HostAction :=
  let l1 := { l with assistantResponse := responseText d }
  if responseText d = "" then (l1, out)
  else
    let words := split (responseText d)
    let r := deliver words interruptAfter words.length 0 l1 out
    if r.1.user_interrupt then r
    else
      ({ r.1 with
          messages := r.1.messages ++ [⟨Role.assistant, r.1.assistantResponse⟩]
          assistantResponse := "" },
        r.2 ++ [HostAction.flushTtsTokens])

/-- The `catch` branch (llm-streaming.js 166-171): speak the error sentence, flush. -/
def deliverError (l : Locals) (out : List HostAction) : Locals × List HostAction :=
  (l, out ++ [HostAction.sendTtsTokens errorSentence, HostAction.flushTtsTokens])

/-- The synchronous start of a final utterance that has a first alternative
(llm-streaming.js 88-100): set `answeredAt` when it is not set yet, append the user
entry with its transcript, lower the interrupt flag. -/
def recordUtterance (l : Locals) (transcript : String) (now : Int) : Locals :=
  { l with
    answeredAt :=
      match l.answeredAt with
      | none => some now
      | some t => some t
    messages := l.messages ++ [⟨Role.user, transcript⟩]
    user_interrupt := false }

/-- The first step of a final utterance (llm-streaming.js 89-94): set `answeredAt`
when it is not set yet. -/
def markAnswered (l : Locals) (now : Int) : Locals :=
  { l with
    answeredAt :=
      match l.answeredAt with
      | none => some now
      | some t => some t }

/-- The handler `onSpeechDetected` (llm-streaming.js 75-175), run to completion.
`now` is the clock reading of line 90, `outcome` the result of the webhook request.
For a final event line 90 sets `answeredAt` first; line 95 then reads
`speech.alternatives[0]` outside the `try` and throws when there is none, which ends
the handler; otherwise its transcript is logged (`recordUtterance` is the two steps
together) and sent to the webhook. -/
def onSpeechDetected (l : Locals) (event : Option Speech) (now : Int)
    (outcome : WebhookOutcome) (interruptAfter : Option Nat) : Locals × List HostAction :=
  match event with
  | none => (l, [HostAction.reply])
  | some speech =>
    if speech.is_final then
      match speech.alternatives with
      | [] => (markAnswered l now, [HostAction.reply])
      | transcript :: _ =>
        let l2 := recordUtterance l transcript now
        let out := [HostAction.reply, HostAction.webhookPost transcript l2.sessionId]
        let l3 := interruptDuring (decide (interruptAfter = some 0)) l2
        match outcome with
        | WebhookOutcome.failed => deliverError l3 out
        | WebhookOutcome.responded none => deliverError l3 out
        | WebhookOutcome.responded (some d) => deliverResponse d interruptAfter l3 out
    else (l, [HostAction.reply])

/-- Result of awaiting the storage request of a close handler: the promise rejects, or
it resolves with a body whose `conversation_id` may be absent. -/
inductive SaveOutcome
  | failed
  | saved (conversation_id : Option String)
deriving DecidableEq, Repr

/-- The value `totalDurationSeconds` of `onClose` (llm-streaming.js 211-223):
`Math.floor(session.duration)` when `session.duration` is truthy, and otherwise
`Math.floor((terminatedAt - startTime) / 1000)`. A duration of `0` is falsy. -/
def totalDurationSeconds (s : Session) (terminatedAt : Int) : Int :=
  match s.duration with
  | some d =>
    if d = 0 then ⌊((terminatedAt - s.locals.startTime : Int) : ℚ) / 1000⌋ else ⌊d⌋
  | none => ⌊((terminatedAt - s.locals.startTime : Int) : ℚ) / 1000⌋

/-- The mapping of the message log to record events (llm-streaming.js 279-284). -/
def toEvents (startTime : Int) (messages : List Message) : List RecordEvent :=
  messages.mapIdx fun index msg =>
    { type := if msg.role = Role.user then EventType.user_input else EventType.agent_response
      user_transcript := if msg.role = Role.user then some msg.content else none
      agent_response := if msg.role = Role.assistant then some msg.content else none
      timestamp := startTime + (index : Int) * 1000 }

/-- The object `conversationData` of `onClose` (llm-streaming.js 265-285);
`terminatedAt` is the clock reading stored in `endTime` by line 204. -/
def conversationData (s : Session) (terminatedAt : Int) : ConversationData :=
  { call_sid := s.call_sid
    application_sid := jsOrOpt s.application_sid none
    account_sid := jsOrOpt s.account_sid none
    summary :=
      { from_ := jsOr s.from_ (jsOr s.calling_number s.call_sid)
        to_ := jsOr s.to_ (jsOr s.called_number s.call_sid)
        duration_minutes := durationDisplay (totalDurationSeconds s terminatedAt)
        answered := s.locals.answeredAt.isSome
        direction := "inbound"
        attempted_at := s.locals.startTime
        answered_at := s.locals.answeredAt
        terminated_at := terminatedAt }
    events := toEvents s.locals.startTime s.locals.messages }

/-- The messages handed to the summarizer by the voice close handler
(llm-streaming.js 304-308). -/
def formattedMessages (messages : List Message) : List SummarizerMessage :=
  messages.map fun msg =>
    { sender := some (if msg.role = Role.user then "user" else "agent")
      message := some msg.content }

/-- The handler `onClose` (llm-streaming.js 188-326), run to completion. `now` is the
clock reading of line 204, `save` the result of the request to the report endpoint
and `summary` what `summarizeConversation` returns (`none`: `null`). -/
def onClose (s : Session) (now : Int) (save : SaveOutcome) (summary : Option String) :
    Session × List HostAction :=
  let s1 : Session := { s with locals := { s.locals with endTime := some now } }
  let out := [HostAction.reportPost (conversationData s1 now)]
  match save with
  | SaveOutcome.failed => (s1, out)
  | SaveOutcome.saved none => (s1, out)
  | SaveOutcome.saved (some cid) =>
    if cid = "" then (s1, out)
    else
      let s2 : Session := { s1 with locals := { s1.locals with conversation_id := some cid } }
      if 0 < s2.locals.messages.length then
        let out1 := out ++ [HostAction.summarize (formattedMessages s2.locals.messages)]
        if truthy summary then
          (s2, out1 ++ [HostAction.updateConversationSummary cid (summary.getD "")])
        else (s2, out1)
      else (s2, out)

/-! ## Chat sessions (chat-streaming.js) -/

/-- The values taken by `session.status`. -/
inductive ChatStatus
  | connecting
  | active
  | ready
deriving DecidableEq, Repr

/-- The bot object returned by the lookup, with the fields the handler reads. -/
structure Bot where
  active : Bool
  name : String
  webhook_url : String
  user_prompt_fields : Option (List String)
deriving DecidableEq, Repr

/-- The `type` of an entry of `session.messages`. -/
inductive ChatMessageType
  | user
  | bot
deriving DecidableEq, Repr

/-- An entry of `session.messages` (chat-streaming.js 126-132 and 150-155). -/
structure ChatMessage where
  id : String
  type : ChatMessageType
  content : String
  timestamp : Int
deriving DecidableEq, Repr

/-- The object `session` of a chat connection (chat-streaming.js 40-48), with the
`bot` member the lookup callback adds. `userDetails` is kept as its JSON text. -/
structure ChatSession where
  id : String
  botId : String
  startTime : Int
  userDetails : String
  messages : List ChatMessage
  status : ChatStatus
  bot : Option Bot
deriving DecidableEq, Repr

/-- Frames the server writes to the socket, by their `type` member. -/
inductive Frame
  | error (message : String)
  | welcome (message : String) (user_prompt_fields : List String)
  | user_details_received (message : String)
  | bot_reply (message : String)
  | pong (message : String)
  | heartbeat (message : String)
deriving DecidableEq, Repr

/-- An element of `message_log` in the record a chat session saves
(chat-streaming.js 275-281). -/
structure ChatLogEntry where
  sender : String
  message : String
  timestamp : Int
deriving DecidableEq, Repr

/-- The object `conversationData` of `saveConversationToDatabase`
(chat-streaming.js 270-286). -/
structure ChatConversationData where
  conversation_id : String
  bot_id : String
  channel_type : String
  user_details : String
  message_log : List ChatLogEntry
  started_at : Int
  ended_at : Int
  duration_minutes : Int
  status : String
deriving DecidableEq, Repr

/-- Outbound actions of the chat handlers, in the order they are issued. -/
inductive ChatAction
  | send (frame : Frame)
  | close (code : Option Nat) (reason : Option String)
  | botLookup (botId : String)
  | webhookPost (url message sessionId : String)
  | savePost (data : ChatConversationData)
  | summarize (conversationText : String)
  | updateConversationSummary (conversationId summary : String)
deriving DecidableEq, Repr

/-- Frames a client sends, after `JSON.parse`: the three known types, any other type,
and text that does not parse. -/
inductive ClientFrame
  | user_details (details : String)
  | chat_message (content : String)
  | ping
  | other
  | malformed
deriving DecidableEq, Repr

/-- The registry `chatSessions`, a map from session id to session. -/
abbrev Registry := List (String × ChatSession)

/-- The call `chatSessions.set(sessionId, session)`. -/
def Registry.set (reg : Registry) (sessionId : String) (session : ChatSession) : Registry :=
  (sessionId, session) :: reg.filter fun e => !(e.1 = sessionId)

/-- The call `chatSessions.delete(sessionId)`. -/
def Registry.delete (reg : Registry) (sessionId : String) : Registry :=
  reg.filter fun e => !(e.1 = sessionId)

/-- What a chat connection owns besides its registry entry: the session object and
the two timers (`true`: still scheduled). -/
structure ChatConnection where
  session : ChatSession
  connectionTimeout : Bool
  heartbeat : Bool
deriving DecidableEq, Repr

/-- The `connection` handler up to the registration of the socket handlers
(chat-streaming.js 20-60 and 235). `botId` is `url.searchParams.get("bot_id")`
(`none`: `null`), `sessionId` the generated identifier, `now` the clock reading.
Returns the registry, the actions and, when a session was created, its connection. -/
def onConnection (reg : Registry) (botId : Option String) (sessionId : String) (now : Int) :
    Registry × List ChatAction × Option ChatConnection :=
  if truthy botId then
    let session : ChatSession :=
      { id := sessionId
        botId := botId.getD ""
        startTime := now
        userDetails := "\x7b\x7d"
        messages := []
        status := ChatStatus.connecting
        bot := none }
    (reg.set sessionId session, [ChatAction.botLookup (botId.getD "")],
      some { session := session, connectionTimeout := true, heartbeat := true })
  else
    (reg, [ChatAction.send (Frame.error "Bot ID required"),
           ChatAction.close (some 1008) (some "Bot ID required")], none)

/-- The reply sent when the webhook answers without a `reply` (chat-streaming.js 168). -/
def defaultReply : String := "Thank you for your message. I will get back to you soon."

/-- The reply sent when the webhook request throws (chat-streaming.js 187). -/
def fallbackReply : String := "I am currently processing your request. Please wait a moment."

/-- Appends a bot entry to the log and sends it as a `bot_reply` frame
(chat-streaming.js 150-162, 165-177, 184-196); `now` is the clock reading then. -/
def pushBotReply (s : ChatSession) (now : Int) (content : String) (out : List ChatAction) :
    ChatSession × List ChatAction :=
  ({ s with messages := s.messages ++
      [{ id := "msg_" ++ toString now ++ "_bot", type := ChatMessageType.bot,
         content := content, timestamp := now }] },
    out ++ [ChatAction.send (Frame.bot_reply content)])

/-- The user entry appended for a `chat_message` frame (chat-streaming.js 126-134). -/
def pushChatMessage (s : ChatSession) (now : Int) (content : String) : ChatSession :=
  { s with messages := s.messages ++
      [{ id := "msg_" ++ toString now, type := ChatMessageType.user,
         content := content, timestamp := now }] }

/-- The `message` handler of a chat socket (chat-streaming.js 102-221), run to
completion. `now` is the clock reading when the frame arrives, `outcome` the result of
the webhook request when one is issued, `later` the clock reading after the request.
A session whose `bot` is not set yet throws on `session.bot.webhook_url` inside the
`try`, which the `catch` of line 180 answers like a failed request. -/
def onMessage (s : ChatSession) (frame : ClientFrame) (now : Int) (outcome : WebhookOutcome)
    (later : Int) : ChatSession × List ChatAction :=
  match frame with
  | ClientFrame.malformed => (s, [ChatAction.send (Frame.error "Error processing message")])
  | ClientFrame.user_details details =>
    ({ s with userDetails := details, status := ChatStatus.ready },
      [ChatAction.send (Frame.user_details_received "Thank you! How can I help you today?")])
  | ClientFrame.chat_message content =>
    if s.status ≠ ChatStatus.ready then
      (s, [ChatAction.send (Frame.error "Please provide your details first")])
    else
      let s1 := pushChatMessage s now content
      match s1.bot with
      | none => pushBotReply s1 later fallbackReply []
      | some bot =>
        let out := [ChatAction.webhookPost bot.webhook_url content s1.id]
        match outcome with
        | WebhookOutcome.failed => pushBotReply s1 later fallbackReply out
        | WebhookOutcome.responded none => pushBotReply s1 later defaultReply out
        | WebhookOutcome.responded (some d) =>
          if truthy d.reply then pushBotReply s1 later (d.reply.getD "") out
          else pushBotReply s1 later defaultReply out
  | ClientFrame.ping => (s, [ChatAction.send (Frame.pong "pong")])
  | ClientFrame.other => (s, [ChatAction.send (Frame.error "Unknown message type")])

/-- The record built by `saveConversationToDatabase` (chat-streaming.js 270-286). -/
def chatConversationData (s : ChatSession) (now : Int) : ChatConversationData :=
  { conversation_id := s.id
    bot_id := s.botId
    channel_type := "chat"
    user_details := s.userDetails
    message_log := s.messages.map fun msg =>
      { sender := if msg.type = ChatMessageType.user then "user" else "agent"
        message := msg.content
        timestamp := msg.timestamp }
    started_at := s.startTime
    ended_at := now
    duration_minutes := ⌊((now - s.startTime : Int) : ℚ) / 1000 / 60⌋
    status := "completed" }

/-- The `close` handler of a chat socket (chat-streaming.js 223-232): cancel the
admission timer, save when the log is not empty, drop the registry entry. -/
def onChatClose (reg : Registry) (c : ChatConnection) (now : Int) :
    Registry × ChatConnection × List ChatAction :=
  let c1 : ChatConnection := { c with connectionTimeout := false }
  let out :=
    if 0 < c.session.messages.length then
      [ChatAction.savePost (chatConversationData c.session now)]
    else []
  (reg.delete c.session.id, c1, out)

/-! ## Runs of a voice session -/

/-- What a voice session receives before it closes: a `/speech-detected` event, with
the clock reading, the webhook result and the interrupt timing of its handling, or a
`tts:user_interrupt` event that arrives between two utterances. -/
inductive VoiceEvent
  | speechDetected (event : Option Speech) (now : Int) (outcome : WebhookOutcome)
      (interruptAfter : Option Nat)
  | userInterrupt
deriving DecidableEq, Repr

/-- One event handled to completion. -/
def stepVoice (l : Locals) : VoiceEvent → Locals
  | VoiceEvent.speechDetected event now outcome interruptAfter =>
    (onSpeechDetected l event now outcome interruptAfter).1
  | VoiceEvent.userInterrupt => onUserInterrupt l

/-- A sequence of events, each handled to completion before the next one arrives. -/
def runVoice (l : Locals) (events : List VoiceEvent) : Locals :=
  events.foldl stepVoice l

/-- The log holds a user entry. -/
def hasUser (messages : List Message) : Bool :=
  messages.any fun m => decide (m.role = Role.user)

/-- The roles of a log alternate, the first one being `expected`. -/
def alternatesFrom : Role → List Role → Bool
  | _, [] => true
  | Role.user, r :: rs => decide (r = Role.user) && alternatesFrom Role.assistant rs
  | Role.assistant, r :: rs => decide (r = Role.assistant) && alternatesFrom Role.user rs

/-- The log strictly alternates user and assistant entries, beginning with a user entry. -/
def alternates (messages : List Message) : Bool :=
  alternatesFrom Role.user (messages.map fun m => m.role)

/-- The chunks handed to the host, in order. -/
def sentTokens : List HostAction → List String
  | [] => []
  | HostAction.sendTtsTokens t :: rest => t :: sentTokens rest
  | _ :: rest => sentTokens rest

/-- The number of flushes issued. -/
def flushCount : List HostAction → Nat
  | [] => 0
  | HostAction.flushTtsTokens :: rest => flushCount rest + 1
  | _ :: rest => flushCount rest

/-- The records posted to the report endpoint, in order. -/
def reportPosts : List HostAction → List ConversationData
  | [] => []
  | HostAction.reportPost d :: rest => d :: reportPosts rest
  | _ :: rest => reportPosts rest

/-- The frames written to a chat socket, in order. -/
def framesSent : List ChatAction → List Frame
  | [] => []
  | ChatAction.send f :: rest => f :: framesSent rest
  | _ :: rest => framesSent rest

/-- The records posted to storage by a chat handler, in order. -/
def savePosts : List ChatAction → List ChatConversationData
  | [] => []
  | ChatAction.savePost d :: rest => d :: savePosts rest
  | _ :: rest => savePosts rest

/-- The webhook requests issued by a chat handler, by message, in order. -/
def webhookPosts : List ChatAction → List String
  | [] => []
  | ChatAction.webhookPost _ m _ :: rest => m :: webhookPosts rest
  | _ :: rest => webhookPosts rest

/-- The `j`-th chunk of a word list: `words.slice(5 * j, 5 * j + 5).join(" ") + " "`. -/
def chunkAt (words : List String) (j : Nat) : String :=
  join ((words.drop (chunkSize * j)).take chunkSize) ++ " "

/-- The event carries a transcript when it is final: its `alternatives` has a first
element. -/
def carriesTranscript : VoiceEvent → Bool
  | VoiceEvent.speechDetected (some speech) _ _ _ =>
    !speech.is_final || !speech.alternatives.isEmpty
  | _ => true

/-- The answered time is set exactly when the log holds a user entry. -/
def AnsweredInv (l : Locals) : Prop := l.answeredAt.isSome = hasUser l.messages

/-- The types of a chat log are user, bot, user, bot, and so on, in pairs. -/
def chatAlternates : List ChatMessageType → Bool
  | [] => true
  | [_] => false
  | ChatMessageType.user :: ChatMessageType.bot :: rest => chatAlternates rest
  | _ :: _ :: _ => false

/-! ## Chat sessions: bot lookup, timers and interleaved handling -/

/-- Result of awaiting the bot lookup `axios.get`: the promise rejects, or it resolves
with a body, `none` being an empty body. -/
inductive LookupOutcome
  | failed
  | found (bot : Option Bot)
deriving DecidableEq, Repr

/-- The prompt fields sent when the bot configures none (chat-streaming.js 83-87), by
name. -/
def defaultPromptFields : List String := ["name", "email", "phone"]

/-- The callbacks of the bot lookup (chat-streaming.js 62-100), run when the lookup
settles. -/
def onBotLookup (c : ChatConnection) (result : LookupOutcome) :
    ChatConnection × List ChatAction :=
  match result with
  | LookupOutcome.failed =>
    ({ c with connectionTimeout := false },
      [ChatAction.send (Frame.error "Error initializing chat session"),
       ChatAction.close none none])
  | LookupOutcome.found none =>
    (c, [ChatAction.send (Frame.error "Bot not found or inactive"),
         ChatAction.close none none])
  | LookupOutcome.found (some bot) =>
    if bot.active then
      ({ c with
          session := { c.session with bot := some bot, status := ChatStatus.active }
          connectionTimeout := false },
        [ChatAction.send (Frame.welcome
          ("Welcome to " ++ bot.name ++ "! Please provide your details to get started.")
          (bot.user_prompt_fields.getD defaultPromptFields))])
    else
      (c, [ChatAction.send (Frame.error "Bot not found or inactive"),
           ChatAction.close none none])

/-- The `error` handler of a chat socket (chat-streaming.js 251-256): cancel both
timers, drop the registry entry. -/
def onChatError (reg : Registry) (c : ChatConnection) : Registry × ChatConnection :=
  (reg.delete c.session.id, { c with heartbeat := false, connectionTimeout := false })

/-- One tick of the heartbeat interval (chat-streaming.js 235-249); `isOpen` says
whether `ws.readyState === WebSocket.OPEN`. -/
def onHeartbeat (c : ChatConnection) (isOpen : Bool) : ChatConnection × List ChatAction :=
  if isOpen then (c, [ChatAction.send (Frame.heartbeat "ping")])
  else ({ c with heartbeat := false }, [])

/-- Position of a status in the order connecting, awaiting details (`active` in the
code), ready. -/
def statusRank : ChatStatus → Nat
  | ChatStatus.connecting => 0
  | ChatStatus.active => 1
  | ChatStatus.ready => 2

/-- What a chat connection receives: the result of its bot lookup, or a client frame,
handled to completion. -/
inductive ChatEvent
  | lookup (result : LookupOutcome)
  | message (frame : ClientFrame) (now : Int) (outcome : WebhookOutcome) (later : Int)
deriving DecidableEq, Repr

/-- One event of a chat connection handled to completion. -/
def stepChat (c : ChatConnection) : ChatEvent → ChatConnection
  | ChatEvent.lookup result => (onBotLookup c result).1
  | ChatEvent.message frame now outcome later =>
    { c with session := (onMessage c.session frame now outcome later).1 }

/-- The statuses a chat connection goes through along a sequence of events, the
status before the first event included. -/
def statusTrace (c : ChatConnection) : List ChatEvent → List ChatStatus
  | [] => [c.session.status]
  | e :: es => c.session.status :: statusTrace (stepChat c e) es

/-- A sequence of client frames, each handled to completion. -/
def runFrames (s : ChatSession) :
    List (ClientFrame × Int × WebhookOutcome × Int) → ChatSession
  | [] => s
  | (frame, now, outcome, later) :: rest =>
    runFrames (onMessage s frame now outcome later).1 rest

/-- The `message` handler up to the point where it suspends on the webhook request
(chat-streaming.js 102-147) or returns. The flag says whether it suspended. `later` is
the clock reading of the `catch` branch, taken when the request cannot be built. -/
def onMessageStart (s : ChatSession) (frame : ClientFrame) (now later : Int) :
    ChatSession × List ChatAction × Bool :=
  match frame with
  | ClientFrame.chat_message content =>
    if s.status ≠ ChatStatus.ready then
      (s, [ChatAction.send (Frame.error "Please provide your details first")], false)
    else
      let s1 := pushChatMessage s now content
      match s1.bot with
      | none => ((pushBotReply s1 later fallbackReply []).1,
          (pushBotReply s1 later fallbackReply []).2, false)
      | some bot => (s1, [ChatAction.webhookPost bot.webhook_url content s1.id], true)
  | ClientFrame.malformed =>
    (s, [ChatAction.send (Frame.error "Error processing message")], false)
  | ClientFrame.user_details details =>
    ({ s with userDetails := details, status := ChatStatus.ready },
      [ChatAction.send (Frame.user_details_received "Thank you! How can I help you today?")],
      false)
  | ClientFrame.ping => (s, [ChatAction.send (Frame.pong "pong")], false)
  | ClientFrame.other => (s, [ChatAction.send (Frame.error "Unknown message type")], false)

/-- The `message` handler from the point where the webhook request settles
(chat-streaming.js 149-197), run on the session as it is then. -/
def onMessageResume (s : ChatSession) (outcome : WebhookOutcome) (later : Int) :
    ChatSession × List ChatAction :=
  match outcome with
  | WebhookOutcome.failed => pushBotReply s later fallbackReply []
  | WebhookOutcome.responded none => pushBotReply s later defaultReply []
  | WebhookOutcome.responded (some d) =>
    if truthy d.reply then pushBotReply s later (d.reply.getD "") []
    else pushBotReply s later defaultReply []

/-- A chat session between events: the session object, the number of webhook requests
that await their response, and the actions issued so far. -/
structure ChatRun where
  session : ChatSession
  outstanding : Nat
  out : List ChatAction
deriving DecidableEq, Repr

/-- What the event loop delivers to a chat session: a client frame, or the settling
of a webhook request that is awaited. -/
inductive ChatStep
  | arrives (frame : ClientFrame) (now later : Int)
  | settles (outcome : WebhookOutcome) (later : Int)
deriving DecidableEq, Repr

/-- One turn of the event loop for a chat session. -/
def stepRun (r : ChatRun) : ChatStep → ChatRun
  | ChatStep.arrives frame now later =>
    { session := (onMessageStart r.session frame now later).1
      outstanding :=
        if (onMessageStart r.session frame now later).2.2 then r.outstanding + 1
        else r.outstanding
      out := r.out ++ (onMessageStart r.session frame now later).2.1 }
  | ChatStep.settles outcome later =>
    if r.outstanding = 0 then r
    else
      { session := (onMessageResume r.session outcome later).1
        outstanding := r.outstanding - 1
        out := r.out ++ (onMessageResume r.session outcome later).2 }

/-- A sequence of turns of the event loop. -/
def runSteps (r : ChatRun) (steps : List ChatStep) : ChatRun :=
  steps.foldl stepRun r

/-- The largest number of webhook requests awaiting their response at any point of a
sequence of turns. -/
def maxOutstanding (r : ChatRun) : List ChatStep → Nat
  | [] => r.outstanding
  | st :: rest => max r.outstanding (maxOutstanding (stepRun r st) rest)

/-- The client waits for the reply: every frame of the sequence arrives when no
webhook request of the session awaits its response. -/
def waitsForReply (r : ChatRun) : List ChatStep → Bool
  | [] => true
  | ChatStep.arrives frame now later :: rest =>
    decide (r.outstanding = 0) && waitsForReply (stepRun r (ChatStep.arrives frame now later)) rest
  | ChatStep.settles outcome later :: rest =>
    waitsForReply (stepRun r (ChatStep.settles outcome later)) rest

/-! ## Records, summaries and the report route -/

/-- A JSON value that is a number or a string. -/
inductive JsValue
  | number (n : Int)
  | string (s : String)
deriving DecidableEq, Repr

/-- The member `duration_minutes` of the record a chat session saves, as the value the
JSON body carries: the number `Math.floor(ms / 1000 / 60)` (chat-streaming.js 284). -/
def chatDurationField (d : ChatConversationData) : JsValue :=
  JsValue.number d.duration_minutes

/-- The member `summary.duration_minutes` of the record a voice session posts, as the
value the JSON body carries: the string `durationDisplay` (llm-streaming.js 272). -/
def voiceDurationField (d : ConversationData) : JsValue :=
  JsValue.string d.summary.duration_minutes

/-- The text a template literal prints for a member: `undefined` for a missing one. -/
def templateText (a : Option String) : String :=
  match a with
  | some x => x
  | none => "undefined"

/-- The text `conversationText` of `summarizeConversation`
(conversation-summarizer.js 21-30): every message becomes a line of its role, taken
from `sender`, and its content, taken from `message`. -/
def conversationText (messages : List SummarizerMessage) : String :=
  "\n".intercalate (messages.map fun msg =>
    (if msg.sender = some "user" then "user" else "assistant") ++ ": " ++
      templateText msg.message)

/-- An entry of a chat log read through the members `sender` and `message`, as
`summarizeConversation` does: the entry (chat-streaming.js 126-132, 150-155) has the
members `id`, `type`, `content`, `timestamp` and `userDetails`, and neither of those. -/
def chatEntryAsRead (_ : ChatMessage) : SummarizerMessage :=
  { sender := none, message := none }

/-- The function `saveConversationToDatabase` (chat-streaming.js 265-323), run to
completion: `save` is the result of the storage request, `summary` what
`summarizeConversation` returns (`none`: `null`). The summarizer is handed
`session.messages` as they are (chat-streaming.js 301). -/
def saveConversationToDatabase (s : ChatSession) (now : Int) (save : SaveOutcome)
    (summary : Option String) : List ChatAction :=
  let out := [ChatAction.savePost (chatConversationData s now)]
  match save with
  | SaveOutcome.failed => out
  | SaveOutcome.saved cid =>
    if 0 < s.messages.length then
      let out1 := out ++ [ChatAction.summarize (conversationText (s.messages.map chatEntryAsRead))]
      if truthy summary then
        out1 ++ [ChatAction.updateConversationSummary (jsOr cid s.id) (summary.getD "")]
      else out1
    else out

/-- The transcript texts handed to the completion service by a chat handler, in order. -/
def transcripts : List ChatAction → List String
  | [] => []
  | ChatAction.summarize t :: rest => t :: transcripts rest
  | _ :: rest => transcripts rest

/-- The transcript as the specification describes it: one line per entry of the chat log, `user` for
a user entry and `assistant` for a bot entry, followed by the entry's content. -/
def expectedTranscript (messages : List ChatMessage) : String :=
  "\n".intercalate (messages.map fun m =>
    (if m.type = ChatMessageType.user then "user" else "assistant") ++ ": " ++ m.content)

/-- The body `req.body` of a request to the report route, with the members the route
reads (report.js 10-33) and the member `summary`, which it does not read; a member the
body does not have is `none`. -/
structure ReportBody where
  call_sid : Option String
  sessionId : Option String
  from_ : Option String
  calling_number : Option String
  to_ : Option String
  ivr_number : Option String
  duration : Option JsValue
  answered : Option Bool
  direction : Option String
  attempted_at : Option Int
  answered_at : Option Int
  terminated_at : Option Int
  events : Option (List RecordEvent)
  message : Option String
  timestamp : Option Int
  reply : Option String
  summary : Option RecordSummary
deriving DecidableEq, Repr

/-- The member `summary` of `transformedData` (report.js 12-21). -/
structure TransformedSummary where
  from_ : Option String
  to_ : Option String
  duration : JsValue
  answered : Bool
  direction : String
  attempted_at : Option Int
  answered_at : Option Int
  terminated_at : Option Int
deriving DecidableEq, Repr

/-- The object `transformedData` the report route forwards to storage (report.js 10-34). -/
structure TransformedData where
  call_sid : Option String
  summary : TransformedSummary
  events : List RecordEvent
deriving DecidableEq, Repr

/-- Truthiness of an optional number or string: `0` and the empty string are falsy. -/
def truthyValue (a : Option JsValue) : Bool :=
  match a with
  | some (JsValue.number n) => !(n = 0)
  | some (JsValue.string x) => !(x = "")
  | none => false

/-- The transform of the report route (report.js 10-34); `now` is the clock reading
used for the events it makes up. -/
def transformReport (body : ReportBody) (now : Int) : TransformedData :=
  { call_sid := jsOrOpt body.call_sid body.sessionId
    summary :=
      { from_ := jsOrOpt body.from_ (jsOrOpt body.calling_number body.call_sid)
        to_ := jsOrOpt body.to_ (jsOrOpt body.ivr_number body.call_sid)
        duration := if truthyValue body.duration then body.duration.getD (JsValue.number 0)
          else JsValue.number 0
        answered := !(body.answered = some false)
        direction := jsOr body.direction "inbound"
        attempted_at := body.attempted_at
        answered_at := body.answered_at
        terminated_at := body.terminated_at }
    events :=
      match body.events with
      | some events => events
      | none =>
        [{ type := EventType.user_input
           user_transcript := some (jsOr body.message "Call received")
           agent_response := none
           timestamp :=
             match body.timestamp with
             | some t => if t = 0 then now else t
             | none => now },
         { type := EventType.agent_response
           user_transcript := none
           agent_response := some (jsOr body.reply "Hello from Star Properties")
           timestamp := now }] }

/-- A request body that carries the object `conversationData` of the voice close
handler (llm-streaming.js 265-285): its top-level members are `call_sid`,
`application_sid`, `account_sid`, `summary` and `events`, so of the members the report
route reads only `call_sid` and `events` are present. (The close handler posts the
object to the path `/report/entry` on port 5000, the port the other files use for the
backend; the source does not show that request reaching the route of report.js.) -/
def bodyOfRecord (d : ConversationData) : ReportBody :=
  { call_sid := some d.call_sid
    sessionId := none
    from_ := none
    calling_number := none
    to_ := none
    ivr_number := none
    duration := none
    answered := none
    direction := none
    attempted_at := none
    answered_at := none
    terminated_at := none
    events := some d.events
    message := none
    timestamp := none
    reply := none
    summary := some d.summary }

/-- The words of the `j`-th chunk: `words.slice(5 * j, 5 * j + 5)`. -/
def chunkWords (words : List String) (j : Nat) : List String :=
  (words.drop (chunkSize * j)).take chunkSize

/-- The number of chunks of `w` words: `w / 5` rounded up. -/
def chunkCount (w : Nat) : Nat := (w + (chunkSize - 1)) / chunkSize

/-! ## Duration formatting: theorems -/

theorem toFixed2_hundredths (s : Nat) :
    |(((200 * s + 60) / (2 * 60) : Nat) : ℚ) / 100 - (s : ℚ) / 60| < 1 / 200 := by
  obtain ⟨n, hn⟩ : ∃ n, n = (200 * s + 60) / (2 * 60) := ⟨_, rfl⟩
  obtain ⟨r, hr⟩ : ∃ r, r = (200 * s + 60) % (2 * 60) := ⟨_, rfl⟩
  have h1 : 200 * s + 60 = 120 * n + r := by omega
  have h2 : r < 120 := by omega
  have h3 : 0 < r := by omega
  rw [← hn]
  have h1q : (200 : ℚ) * s + 60 = 120 * n + r := by exact_mod_cast h1
  have h2q : (r : ℚ) < 120 := by exact_mod_cast h2
  have h3q : (0 : ℚ) < r := by exact_mod_cast h3
  rw [abs_lt]
  constructor <;> linarith

theorem roundHalfEven_sixty (a : Nat) :
    60 * roundHalfEven a 60 ≤ a + 30 ∧ a ≤ 60 * roundHalfEven a 60 + 30 := by
  unfold roundHalfEven
  split_ifs <;> omega

theorem binaryExponent_le (fuel : Nat) :
    ∀ q j : Nat, q < 2 ^ (j + 1) → binaryExponent fuel q ≤ j := by
  induction fuel with
  | zero =>
    intro q j _
    exact Nat.zero_le _
  | succ fuel ih =>
    intro q j h
    unfold binaryExponent
    by_cases hq : q < 2
    · simp [hq]
    · simp only [hq, if_false]
      cases j with
      | zero => omega
      | succ j =>
        have hhalf : q / 2 < 2 ^ (j + 1) := by
          rw [Nat.div_lt_iff_lt_mul (by decide)]
          rw [Nat.pow_succ] at h
          exact h
        have := ih (q / 2) j hhalf
        omega

/-- Below `60 * 2^44` seconds the quotient by 60 is below `2^44`, so the last bit of
its double is worth `2^-9` at most. -/
theorem divideDoubles_small (s : Nat) (h : s < 60 * 2 ^ 44) :
    ∃ p, 2 ^ 9 ≤ 2 ^ p ∧
      divideDoubles s 60 = (roundHalfEven (s * 2 ^ p) 60, 2 ^ p) := by
  have hq : s / 60 < 2 ^ (43 + 1) := by
    rw [Nat.div_lt_iff_lt_mul (by decide)]
    omega
  have hk := binaryExponent_le (s / 60) (s / 60) 43 hq
  refine ⟨52 - binaryExponent (s / 60) (s / 60),
    Nat.pow_le_pow_right (by decide) (by omega), ?_⟩
  unfold divideDoubles
  simp only [show binaryExponent (s / 60) (s / 60) ≤ 52 by omega, if_true]

/-- Below `60 * 2^44` seconds the double quotient is below `10^21` and its closest
number of hundredths is that of the exact quotient: the error of the double, `2^-10`
at most, is less than the distance `1/600` of `s / 60` from a rounding tie. -/
theorem hundredths_small (s : Nat) (h : s < 60 * 2 ^ 44) :
    (divideDoubles s 60).1 < 10 ^ 21 * (divideDoubles s 60).2 ∧
    hundredths (divideDoubles s 60) = (200 * s + 60) / (2 * 60) := by
  obtain ⟨p, hp, hd⟩ := divideDoubles_small s h
  rw [hd]
  obtain ⟨h1, h2⟩ := roundHalfEven_sixty (s * 2 ^ p)
  generalize roundHalfEven (s * 2 ^ p) 60 = m at h1 h2
  generalize hD : 2 ^ p = D at *
  have hD9 : 512 ≤ D := by
    have : (2 : Nat) ^ 9 = 512 := by norm_num
    omega
  obtain ⟨n, hn⟩ : ∃ n, n = (200 * s + 60) / (2 * 60) := ⟨_, rfl⟩
  have hn1 : 6 * n ≤ 10 * s + 2 := by omega
  have hn2 : 10 * s ≤ 6 * n + 2 := by omega
  have hA1 : 6 * (n * D) ≤ 10 * (s * D) + 2 * D := by nlinarith
  have hA2 : 10 * (s * D) ≤ 6 * (n * D) + 2 * D := by nlinarith
  have hs : s * D < 60 * 2 ^ 44 * D := Nat.mul_lt_mul_of_pos_right h (by omega)
  constructor
  · show m < 10 ^ 21 * D
    have h44 : (2 : Nat) ^ 44 = 17592186044416 := by norm_num
    have h21 : (10 : Nat) ^ 21 = 1000000000000000000000 := by norm_num
    rw [h44] at hs
    rw [h21]
    omega
  · show (200 * m + D) / (2 * D) = (200 * s + 60) / (2 * 60)
    rw [← hn]
    apply Nat.div_eq_of_lt_le
    · nlinarith
    · nlinarith

/-- From 60 seconds on and below `60 * 2^44`, the formatted duration is the numeral
with two decimals of the hundredths closest to the exact quotient, then "m". -/
theorem durationDisplay_minutes (s : Nat) (h60 : 60 ≤ s) (h : s < 60 * 2 ^ 44) :
    durationDisplay (s : Int) = fixedText ((200 * s + 60) / (2 * 60)) ++ "m" := by
  have h1 : ¬ (s : Int) < 60 := by
    have : (60 : Int) ≤ s := by exact_mod_cast h60
    omega
  obtain ⟨hlt, hh⟩ := hundredths_small s h
  unfold durationDisplay
  rw [if_neg h1, Int.toNat_natCast]
  unfold toFixed2
  rw [if_pos hlt, hh]

theorem roundHalfEven_upper (a b : Nat) :
    2 * (b * roundHalfEven a b) ≤ 2 * a + b := by
  have hdm : b * (a / b) + a % b = a := Nat.div_add_mod a b
  unfold roundHalfEven
  split_ifs
  · omega
  · rw [Nat.mul_succ]
    omega
  · omega
  · rw [Nat.mul_succ]
    omega

/-- Below `60 * 2^69` seconds the double quotient by 60 is below `10^21`. -/
theorem divideDoubles_below (s : Nat) (h : s < 60 * 2 ^ 69) :
    (divideDoubles s 60).1 < 10 ^ 21 * (divideDoubles s 60).2 := by
  have hq : s / 60 < 2 ^ (68 + 1) := by
    rw [Nat.div_lt_iff_lt_mul (by decide)]
    omega
  have hk := binaryExponent_le (s / 60) (s / 60) 68 hq
  have h69 : (2 : Nat) ^ 69 = 590295810358705651712 := by norm_num
  have h21 : (10 : Nat) ^ 21 = 1000000000000000000000 := by norm_num
  rw [h69] at h
  unfold divideDoubles
  by_cases hb : binaryExponent (s / 60) (s / 60) ≤ 52
  · simp only [hb, if_true]
    obtain ⟨h1, _⟩ := roundHalfEven_sixty (s * 2 ^ (52 - binaryExponent (s / 60) (s / 60)))
    generalize roundHalfEven (s * 2 ^ (52 - binaryExponent (s / 60) (s / 60))) 60 = m at h1
    have hD : 1 ≤ 2 ^ (52 - binaryExponent (s / 60) (s / 60)) := Nat.one_le_two_pow
    generalize 2 ^ (52 - binaryExponent (s / 60) (s / 60)) = D at *
    have hs : s * D < 60 * 590295810358705651712 * D := Nat.mul_lt_mul_of_pos_right h (by omega)
    rw [h21]
    show m < 1000000000000000000000 * D
    omega
  · simp only [hb, if_false]
    have hup := roundHalfEven_upper s (60 * 2 ^ (binaryExponent (s / 60) (s / 60) - 52))
    generalize roundHalfEven s (60 * 2 ^ (binaryExponent (s / 60) (s / 60) - 52)) = m at hup
    have hE : 2 ^ (binaryExponent (s / 60) (s / 60) - 52) ≤ 2 ^ 16 :=
      Nat.pow_le_pow_right (by decide) (by omega)
    have h16 : (2 : Nat) ^ 16 = 65536 := by norm_num
    rw [h16] at hE
    generalize 2 ^ (binaryExponent (s / 60) (s / 60) - 52) = E at *
    have hprod : 2 * (60 * E * m) = 120 * (m * E) := by ring
    rw [hprod] at hup
    rw [h21]
    show m * E < 1000000000000000000000 * 1
    generalize m * E = x at *
    omega

/-- The numeral of `n` hundredths has a whole part, a point and exactly two digits. -/
theorem fixedText_form (n : Nat) :
    ∃ whole d1 d2 : Nat, d1 < 10 ∧ d2 < 10 ∧ 100 * whole + 10 * d1 + d2 = n ∧
      fixedText n =
        toString whole ++ "." ++ String.mk [Char.ofNat (48 + d1), Char.ofNat (48 + d2)] := by
  refine ⟨n / 100, n % 100 / 10, n % 10, by omega, by omega, by omega, ?_⟩
  unfold fixedText digitChar
  rw [Nat.mod_eq_of_lt (show n % 100 / 10 < 10 by omega), Nat.mod_mod]

/-- From 60 seconds on and below `60 * 2^69`, the formatted duration is the numeral
with two decimals of the hundredths closest to the double quotient, then "m". -/
theorem durationDisplay_two_decimals (s : Nat) (h60 : 60 ≤ s) (h : s < 60 * 2 ^ 69) :
    durationDisplay (s : Int) = fixedText (hundredths (divideDoubles s 60)) ++ "m" := by
  have h1 : ¬ (s : Int) < 60 := by
    have : (60 : Int) ≤ s := by exact_mod_cast h60
    omega
  unfold durationDisplay
  rw [if_neg h1, Int.toNat_natCast]
  unfold toFixed2
  rw [if_pos (divideDoubles_below s h)]

/-- C1 (as stated) fails for durations that the double quotient no longer resolves:
for 10^17 seconds the code prints "1666666666666666.75m", the text of the double
nearest to the quotient, which is more than half a hundredth away from the quotient
1666666666666666.666...; rounding the quotient to two decimals gives ...666.67. -/
theorem durationDisplay_large_counterexample :
    durationDisplay 100000000000000000 = "1666666666666666.75m" ∧
    ¬ |(166666666666666675 : ℚ) / 100 - (100000000000000000 : ℚ) / 60| ≤ 1 / 200 ∧
    |(166666666666666667 : ℚ) / 100 - (100000000000000000 : ℚ) / 60| < 1 / 200 := by
  refine ⟨by decide, ?_, ?_⟩
  · rw [abs_le]
    norm_num
  · rw [abs_lt]
    norm_num

/-- C1 (amended): for a whole number `s` of seconds below `60 * 2^44` the formatted
duration is the decimal numeral of `s` followed by "s" when `s < 60`; otherwise it is,
followed by "m", the numeral with two decimals of the number `n` of hundredths that
lies within half a hundredth of `s / 60`, that is `s / 60` rounded to two decimal
places. 45, 59, 60 and 125 give "45s", "59s", "1.00m" and "2.08m". -/
theorem durationDisplay_spec (s : Nat) (hs : s < 60 * 2 ^ 44) :
    (s < 60 → durationDisplay (s : Int) = toString s ++ "s") ∧
    (60 ≤ s → ∃ n : Nat,
      durationDisplay (s : Int) =
        toString (n / 100) ++ "." ++ String.mk [digitChar (n % 100 / 10), digitChar (n % 10)]
          ++ "m" ∧
      |(n : ℚ) / 100 - (s : ℚ) / 60| < 1 / 200) ∧
    durationDisplay 45 = "45s" ∧ durationDisplay 59 = "59s" ∧
    durationDisplay 60 = "1.00m" ∧ durationDisplay 125 = "2.08m" := by
  refine ⟨?_, ?_, by decide, by decide, by decide, by decide⟩
  · intro h
    have h1 : (s : Int) < 60 := by exact_mod_cast h
    unfold durationDisplay
    rw [if_pos h1]
    rfl
  · intro h
    exact ⟨(200 * s + 60) / (2 * 60), durationDisplay_minutes s h hs, toFixed2_hundredths s⟩

/-- C1 (amended) at 45 and at 125 seconds. -/
theorem durationDisplay_spec_witness :
    durationDisplay ((45 : Nat) : Int) = toString (45 : Nat) ++ "s" ∧
    ∃ n : Nat,
      durationDisplay ((125 : Nat) : Int) =
        toString (n / 100) ++ "." ++ String.mk [digitChar (n % 100 / 10), digitChar (n % 10)]
          ++ "m" ∧
      |(n : ℚ) / 100 - ((125 : Nat) : ℚ) / 60| < 1 / 200 :=
  ⟨(durationDisplay_spec 45 (by norm_num)).1 (by decide),
    (durationDisplay_spec 125 (by norm_num)).2.1 (by decide)⟩

/-! ## The delivery loop -/

theorem interruptDuring_answeredAt (b : Bool) (l : Locals) :
    (interruptDuring b l).answeredAt = l.answeredAt := by
  cases b <;> rfl

theorem interruptDuring_messages (b : Bool) (l : Locals) :
    (interruptDuring b l).messages = l.messages := by
  cases b <;> rfl

theorem interruptDuring_assistantResponse (b : Bool) (l : Locals) :
    (interruptDuring b l).assistantResponse = l.assistantResponse := by
  cases b <;> rfl

theorem deliver_answeredAt (words : List String) (ia : Option Nat) (fuel i : Nat)
    (l : Locals) (out : List HostAction) :
    (deliver words ia fuel i l out).1.answeredAt = l.answeredAt := by
  induction fuel generalizing i l out with
  | zero => rfl
  | succ fuel ih =>
    unfold deliver
    by_cases h1 : i < words.length
    · cases h2 : l.user_interrupt
      · simp only [h1, if_true, Bool.false_eq_true, if_false]
        rw [ih, interruptDuring_answeredAt]
      · simp only [h1, if_true]
    · simp only [h1, if_false]

/-- The iteration bound of the loop is never what stops it: once the bound covers the
words left, any larger bound gives the same result. -/
theorem deliver_fuel_enough (words : List String) (ia : Option Nat) :
    ∀ (fuel fuel2 i : Nat) (l : Locals) (out : List HostAction),
      words.length ≤ i + chunkSize * fuel → words.length ≤ i + chunkSize * fuel2 →
      deliver words ia fuel i l out = deliver words ia fuel2 i l out := by
  intro fuel
  induction fuel with
  | zero =>
    intro fuel2 i l out h _
    have hi : ¬ i < words.length := by omega
    cases fuel2 with
    | zero => rfl
    | succ f2 =>
      conv_rhs => unfold deliver
      simp only [hi, if_false]
      rfl
  | succ fuel ih =>
    intro fuel2 i l out h h2
    cases fuel2 with
    | zero =>
      have hi : ¬ i < words.length := by omega
      conv_lhs => unfold deliver
      simp only [hi, if_false]
      rfl
    | succ f2 =>
      conv_lhs => unfold deliver
      conv_rhs => unfold deliver
      by_cases hi : i < words.length
      · cases hflag : l.user_interrupt
        · simp only [hi, if_true, Bool.false_eq_true, if_false]
          apply ih
          · have : chunkSize * (fuel + 1) = chunkSize + chunkSize * fuel := by ring
            omega
          · have : chunkSize * (f2 + 1) = chunkSize + chunkSize * f2 := by ring
            omega
        · simp only [hi, if_true]
      · simp only [hi, if_false]

theorem hasUser_append (a b : List Message) (h : hasUser a = true) :
    hasUser (a ++ b) = true := by
  simp only [hasUser, List.any_append, Bool.or_eq_true] at *
  exact Or.inl h

theorem deliver_hasUser (words : List String) (ia : Option Nat) (fuel i : Nat)
    (l : Locals) (out : List HostAction) (h : hasUser l.messages = true) :
    hasUser (deliver words ia fuel i l out).1.messages = true := by
  induction fuel generalizing i l out with
  | zero => exact h
  | succ fuel ih =>
    unfold deliver
    by_cases h1 : i < words.length
    · cases h2 : l.user_interrupt
      · simp only [h1, if_true, Bool.false_eq_true, if_false]
        apply ih
        rw [interruptDuring_messages]
        exact h
      · simp only [h1, if_true]
        exact hasUser_append _ _ h
    · simp only [h1, if_false]
      exact h

theorem deliverResponse_answeredAt (d : ResponseData) (ia : Option Nat) (l : Locals)
    (out : List HostAction) : (deliverResponse d ia l out).1.answeredAt = l.answeredAt := by
  unfold deliverResponse
  by_cases h1 : responseText d = ""
  · simp only [h1, if_true]
  · simp only [h1, if_false]
    split
    · rw [deliver_answeredAt]
    · show (deliver _ _ _ _ _ _).1.answeredAt = _
      rw [deliver_answeredAt]

theorem deliverResponse_hasUser (d : ResponseData) (ia : Option Nat) (l : Locals)
    (out : List HostAction) (h : hasUser l.messages = true) :
    hasUser (deliverResponse d ia l out).1.messages = true := by
  unfold deliverResponse
  by_cases h1 : responseText d = ""
  · simp only [h1, if_true]
    exact h
  · simp only [h1, if_false]
    split
    · exact deliver_hasUser _ _ _ _ _ _ h
    · exact hasUser_append _ _ (deliver_hasUser _ _ _ _ _ _ h)

theorem recordUtterance_answered (l : Locals) (transcript : String) (now : Int) :
    (recordUtterance l transcript now).answeredAt.isSome = true := by
  unfold recordUtterance
  cases l.answeredAt <;> rfl

theorem recordUtterance_hasUser (l : Locals) (transcript : String) (now : Int) :
    hasUser (recordUtterance l transcript now).messages = true := by
  simp [recordUtterance, hasUser]

theorem onSpeechDetected_inv (l : Locals) (event : Option Speech) (now : Int)
    (outcome : WebhookOutcome) (ia : Option Nat) (h : AnsweredInv l)
    (hev : carriesTranscript (VoiceEvent.speechDetected event now outcome ia) = true) :
    AnsweredInv (onSpeechDetected l event now outcome ia).1 := by
  cases event with
  | none => exact h
  | some speech =>
    obtain ⟨final, alternatives⟩ := speech
    cases final
    · exact h
    · cases alternatives with
      | nil => simp [carriesTranscript] at hev
      | cons transcript others =>
        have ha : (interruptDuring (decide (ia = some 0))
            (recordUtterance l transcript now)).answeredAt.isSome = true := by
          rw [interruptDuring_answeredAt]
          exact recordUtterance_answered _ _ _
        have hu : hasUser (interruptDuring (decide (ia = some 0))
            (recordUtterance l transcript now)).messages = true := by
          rw [interruptDuring_messages]
          exact recordUtterance_hasUser _ _ _
        cases outcome with
        | failed =>
          show (deliverError _ _).1.answeredAt.isSome = hasUser (deliverError _ _).1.messages
          unfold deliverError
          rw [ha, hu]
        | responded data =>
          cases data with
          | none =>
            show (deliverError _ _).1.answeredAt.isSome = hasUser (deliverError _ _).1.messages
            unfold deliverError
            rw [ha, hu]
          | some d =>
            show (deliverResponse _ _ _ _).1.answeredAt.isSome =
              hasUser (deliverResponse _ _ _ _).1.messages
            rw [deliverResponse_answeredAt, ha, deliverResponse_hasUser _ _ _ _ hu]

theorem runVoice_inv (events : List VoiceEvent) (l : Locals) (h : AnsweredInv l)
    (hev : ∀ e ∈ events, carriesTranscript e = true) :
    AnsweredInv (runVoice l events) := by
  induction events generalizing l with
  | nil => exact h
  | cons e es ih =>
    show AnsweredInv (runVoice (stepVoice l e) es)
    apply ih
    · cases e with
      | speechDetected event now outcome ia =>
        exact onSpeechDetected_inv _ _ _ _ _ h (hev _ (List.mem_cons_self _ _))
      | userInterrupt => exact h
    · intro e2 he2
      exact hev e2 (List.mem_cons_of_mem _ he2)

theorem hasUser_iff (messages : List Message) :
    hasUser messages = true ↔ ∃ m ∈ messages, m.role = Role.user := by
  simp [hasUser]

theorem onClose_reportPosts (s : Session) (now : Int) (save : SaveOutcome)
    (summary : Option String) :
    reportPosts (onClose s now save summary).2 =
      [conversationData { s with locals := { s.locals with endTime := some now } } now] := by
  unfold onClose
  cases save with
  | failed => rfl
  | saved cid =>
    cases cid with
    | none => rfl
    | some cid =>
      by_cases h1 : cid = ""
      · simp only [h1, if_true]
        rfl
      · simp only [h1, if_false]
        by_cases h2 : 0 < s.locals.messages.length
        · simp only [h2, if_true]
          cases truthy summary <;> rfl
        · simp only [h2, if_false]
          rfl

theorem sentTokens_append (a b : List HostAction) :
    sentTokens (a ++ b) = sentTokens a ++ sentTokens b := by
  induction a with
  | nil => rfl
  | cons x xs ih => cases x <;> simp [sentTokens, ih]

theorem flushCount_append (a b : List HostAction) :
    flushCount (a ++ b) = flushCount a + flushCount b := by
  induction a with
  | nil => simp [flushCount]
  | cons x xs ih =>
    cases x <;> simp [flushCount, ih]
    omega

theorem sentTokens_map (f : Nat → String) (ts : List Nat) :
    sentTokens (ts.map fun t => HostAction.sendTtsTokens (f t)) = ts.map f := by
  induction ts with
  | nil => rfl
  | cons t ts ih => simp [sentTokens, ih]

theorem flushCount_map (f : Nat → String) (ts : List Nat) :
    flushCount (ts.map fun t => HostAction.sendTtsTokens (f t)) = 0 := by
  induction ts with
  | nil => rfl
  | cons t ts ih => simp [flushCount, ih]

/-- The loop when the flag is already raised at a check that is reached: the reply
held in `assistantResponse` is logged with the marker and the loop is left. -/
theorem deliver_flag_raised (words : List String) (ia : Option Nat) (fuel i : Nat)
    (l : Locals) (out : List HostAction) (hi : i < words.length)
    (hflag : l.user_interrupt = true) :
    deliver words ia (fuel + 1) i l out =
      ({ l with
          messages := l.messages ++ [⟨Role.assistant, l.assistantResponse ++ "..."⟩]
          assistantResponse := "" }, out) := by
  unfold deliver
  simp only [hi, hflag, if_true]

/-- The loop when the flag is lowered at a check that is reached: one chunk is sent. -/
theorem deliver_flag_lowered (words : List String) (ia : Option Nat) (fuel j : Nat)
    (l : Locals) (out : List HostAction) (hi : chunkSize * j < words.length)
    (hflag : l.user_interrupt = false) :
    deliver words ia (fuel + 1) (chunkSize * j) l out =
      deliver words ia fuel (chunkSize * (j + 1)) (interruptDuring (decide (ia = some (j + 1))) l)
        (out ++ [HostAction.sendTtsTokens (chunkAt words j)]) := by
  conv_lhs => unfold deliver
  have hdiv : chunkSize * j / chunkSize = j := Nat.mul_div_cancel_left j (by decide)
  simp only [hi, hflag, if_true, Bool.false_eq_true, if_false, hdiv]
  rfl

/-- The loop interrupted after `k` chunks, started at chunk `j < k` with the flag
lowered: the chunks `j .. k-1` are sent, then the check before chunk `k` logs the
whole reply with the marker. -/
theorem deliver_interrupted (words : List String) (k : Nat) :
    ∀ (r j fuel : Nat) (l : Locals) (out : List HostAction),
      l.user_interrupt = false → k = j + r + 1 → chunkSize * k < words.length →
      r + 2 ≤ fuel →
      deliver words (some k) fuel (chunkSize * j) l out =
        ({ l with
            messages := l.messages ++ [⟨Role.assistant, l.assistantResponse ++ "..."⟩]
            assistantResponse := ""
            user_interrupt := true },
          out ++ (List.range' j (r + 1)).map fun t => HostAction.sendTtsTokens (chunkAt words t)) := by
  intro r
  induction r with
  | zero =>
    intro j fuel l out hflag hk hlen hfuel
    obtain ⟨f, rfl⟩ : ∃ f, fuel = f + 2 := ⟨fuel - 2, by omega⟩
    have hj : chunkSize * j < words.length := by
      have : chunkSize * j ≤ chunkSize * k := Nat.mul_le_mul_left _ (by omega)
      omega
    have hk1 : k = j + 1 := by omega
    rw [deliver_flag_lowered words _ _ _ _ _ hj hflag]
    have hdec : decide (some k = some (j + 1)) = true := by simp [hk1]
    rw [hdec, deliver_flag_raised words _ _ _ _ _ (by rw [← hk1]; exact hlen) rfl]
    simp [interruptDuring, onUserInterrupt, List.range']
  | succ r ih =>
    intro j fuel l out hflag hk hlen hfuel
    obtain ⟨f, rfl⟩ : ∃ f, fuel = f + 1 := ⟨fuel - 1, by omega⟩
    have hj : chunkSize * j < words.length := by
      have : chunkSize * j ≤ chunkSize * k := Nat.mul_le_mul_left _ (by omega)
      omega
    rw [deliver_flag_lowered words _ _ _ _ _ hj hflag]
    have hdec : decide (some k = some (j + 1)) = false := by
      simp only [decide_eq_false_iff_not, Option.some.injEq]
      omega
    rw [hdec]
    have hl : interruptDuring false l = l := rfl
    rw [hl, ih (j + 1) f l _ hflag (by omega) hlen (by omega)]
    simp [List.range', List.append_assoc]

/-! ## Voice sessions: the message log -/

/-- C2: the log of a voice session does not alternate. A webhook request that fails
leaves the user entry without an assistant entry, so the next utterance puts two
user entries side by side; the same happens when the interrupt is raised after the
last chunk of a reply was sent. -/
theorem voice_log_not_alternating :
    (runVoice (newLocals "call-1" 0)
      [VoiceEvent.speechDetected (some ⟨true, ["hello"]⟩) 1000 WebhookOutcome.failed none,
       VoiceEvent.speechDetected (some ⟨true, ["anyone"]⟩) 2000
        (WebhookOutcome.responded (some ⟨some "yes", none, none, none, "-"⟩)) none]).messages
      = [⟨Role.user, "hello"⟩, ⟨Role.user, "anyone"⟩, ⟨Role.assistant, "yes"⟩] ∧
    alternates (runVoice (newLocals "call-1" 0)
      [VoiceEvent.speechDetected (some ⟨true, ["hello"]⟩) 1000 WebhookOutcome.failed none,
       VoiceEvent.speechDetected (some ⟨true, ["anyone"]⟩) 2000
        (WebhookOutcome.responded (some ⟨some "yes", none, none, none, "-"⟩)) none]).messages
      = false ∧
    (runVoice (newLocals "call-1" 0)
      [VoiceEvent.speechDetected (some ⟨true, ["hello"]⟩) 1000
        (WebhookOutcome.responded (some ⟨some "yes", none, none, none, "-"⟩)) (some 1),
       VoiceEvent.speechDetected (some ⟨true, ["anyone"]⟩) 2000
        (WebhookOutcome.responded (some ⟨some "yes", none, none, none, "-"⟩)) none]).messages
      = [⟨Role.user, "hello"⟩, ⟨Role.user, "anyone"⟩, ⟨Role.assistant, "yes"⟩] := by
  decide

/-- C3 (as stated) fails: the reply "a b c d e f g" is interrupted after its first
chunk "a b c d e " was sent. No further chunk and no flush follow, but the logged
assistant message is the full reply text with the marker, not the chunk sent, with or
without the marker. -/
theorem interrupted_record_counterexample :
    sentTokens (onSpeechDetected (newLocals "call-1" 0) (some ⟨true, ["hello"]⟩) 1000
      (WebhookOutcome.responded (some ⟨some "a b c d e f g", none, none, none, "-"⟩))
      (some 1)).2 = ["a b c d e "] ∧
    (onSpeechDetected (newLocals "call-1" 0) (some ⟨true, ["hello"]⟩) 1000
      (WebhookOutcome.responded (some ⟨some "a b c d e f g", none, none, none, "-"⟩))
      (some 1)).1.messages = [⟨Role.user, "hello"⟩, ⟨Role.assistant, "a b c d e f g..."⟩] ∧
    "a b c d e f g..." ≠ String.join ["a b c d e "] ∧
    "a b c d e f g..." ≠ String.join ["a b c d e "] ++ "..." := by
  decide

/-- C3 (amended): when the interrupt is raised after `k ≥ 1` chunks of a reply were
sent and chunk `k + 1` exists, exactly the first `k` chunks are sent, no flush is
issued, and the assistant message appended to the log is the full reply text followed
by the marker "...". -/
theorem interrupted_reply_logged_in_full (l : Locals) (transcript : String) (others : List String) (now : Int)
    (d : ResponseData) (k : Nat) (hne : responseText d ≠ "") (hk : 1 ≤ k)
    (hmore : chunkSize * k < (split (responseText d)).length) :
    sentTokens (onSpeechDetected l (some ⟨true, transcript :: others⟩) now
      (WebhookOutcome.responded (some d)) (some k)).2
      = (List.range k).map (chunkAt (split (responseText d))) ∧
    flushCount (onSpeechDetected l (some ⟨true, transcript :: others⟩) now
      (WebhookOutcome.responded (some d)) (some k)).2 = 0 ∧
    (onSpeechDetected l (some ⟨true, transcript :: others⟩) now
      (WebhookOutcome.responded (some d)) (some k)).1.messages
      = l.messages ++ [⟨Role.user, transcript⟩, ⟨Role.assistant, responseText d ++ "..."⟩] := by
  have hdec : decide (some k = some 0) = false := by
    simp only [decide_eq_false_iff_not, Option.some.injEq]
    omega
  have hrun : onSpeechDetected l (some ⟨true, transcript :: others⟩) now
      (WebhookOutcome.responded (some d)) (some k) =
      deliverResponse d (some k) (recordUtterance l transcript now)
        [HostAction.reply,
          HostAction.webhookPost transcript (recordUtterance l transcript now).sessionId] := by
    show deliverResponse d (some k)
      (interruptDuring (decide (some k = some 0)) (recordUtterance l transcript now)) _ = _
    rw [hdec]
    rfl
  have hlen : k + 1 ≤ (split (responseText d)).length := by
    have : k ≤ chunkSize * k := Nat.le_mul_of_pos_left k (by decide)
    omega
  have hloop := deliver_interrupted (split (responseText d)) k (k - 1) 0
    (split (responseText d)).length
    { recordUtterance l transcript now with assistantResponse := responseText d }
    [HostAction.reply,
      HostAction.webhookPost transcript (recordUtterance l transcript now).sessionId]
    rfl (by omega) hmore (by omega)
  have hk1 : k - 1 + 1 = k := by omega
  rw [hk1, Nat.mul_zero] at hloop
  rw [hrun]
  unfold deliverResponse
  simp only [hne, if_false]
  rw [hloop]
  simp only [if_true]
  refine ⟨?_, ?_, ?_⟩
  · rw [sentTokens_append, ← List.range_eq_range', sentTokens_map]
    rfl
  · rw [flushCount_append, flushCount_map]
    rfl
  · simp [recordUtterance]

/-- C3 (amended) on a reply of seven words interrupted after its first chunk. -/
theorem interrupted_reply_logged_in_full_witness :
    sentTokens (onSpeechDetected (newLocals "call-1" 0) (some ⟨true, ["hello"]⟩) 1000
      (WebhookOutcome.responded (some ⟨some "a b c d e f g", none, none, none, "-"⟩))
      (some 1)).2
      = (List.range 1).map
          (chunkAt (split (responseText ⟨some "a b c d e f g", none, none, none, "-"⟩))) ∧
    flushCount (onSpeechDetected (newLocals "call-1" 0) (some ⟨true, ["hello"]⟩) 1000
      (WebhookOutcome.responded (some ⟨some "a b c d e f g", none, none, none, "-"⟩))
      (some 1)).2 = 0 ∧
    (onSpeechDetected (newLocals "call-1" 0) (some ⟨true, ["hello"]⟩) 1000
      (WebhookOutcome.responded (some ⟨some "a b c d e f g", none, none, none, "-"⟩))
      (some 1)).1.messages
      = (newLocals "call-1" 0).messages ++ [⟨Role.user, "hello"⟩,
          ⟨Role.assistant,
            responseText ⟨some "a b c d e f g", none, none, none, "-"⟩ ++ "..."⟩] :=
  interrupted_reply_logged_in_full (newLocals "call-1" 0) "hello" [] 1000
    ⟨some "a b c d e f g", none, none, none, "-"⟩ 1 (by decide) (by decide) (by decide)

/-- When every final event carries a transcript, the record posted at close has
`answered` true exactly when the log holds a user entry, and likewise `answered_at` is
non-null exactly then. -/
theorem answered_iff_user_entry (host : Session) (t0 : Int) (events : List VoiceEvent)
    (now : Int) (save : SaveOutcome) (summary : Option String)
    (hev : ∀ e ∈ events, carriesTranscript e = true) :
    ∃ data : ConversationData,
      reportPosts (onClose
        { host with locals := runVoice (newLocals host.call_sid t0) events }
        now save summary).2 = [data] ∧
      (data.summary.answered = true ↔
        ∃ m ∈ (runVoice (newLocals host.call_sid t0) events).messages, m.role = Role.user) ∧
      (data.summary.answered_at ≠ none ↔
        ∃ m ∈ (runVoice (newLocals host.call_sid t0) events).messages, m.role = Role.user) := by
  refine ⟨_, onClose_reportPosts _ _ _ _, ?_, ?_⟩
  · have h := runVoice_inv events (newLocals host.call_sid t0) rfl hev
    unfold AnsweredInv at h
    rw [← hasUser_iff, ← h]
    rfl
  · have h := runVoice_inv events (newLocals host.call_sid t0) rfl hev
    unfold AnsweredInv at h
    rw [← hasUser_iff, ← h]
    show (runVoice (newLocals host.call_sid t0) events).answeredAt ≠ none ↔ _
    cases (runVoice (newLocals host.call_sid t0) events).answeredAt <;> simp

/-- C4: a final speech event whose `alternatives` is empty sets `answeredAt` and then
throws before the user entry is appended: at close the log is empty, with no user
entry, and the record posted says answered, with a non-null `answered_at`. -/
theorem answered_without_user_entry :
    (runVoice (newLocals "call-1" 0)
      [VoiceEvent.speechDetected (some ⟨true, []⟩) 1000 WebhookOutcome.failed none]).messages
      = [] ∧
    (runVoice (newLocals "call-1" 0)
      [VoiceEvent.speechDetected (some ⟨true, []⟩) 1000 WebhookOutcome.failed none]).answeredAt
      = some 1000 ∧
    (reportPosts (onClose
      ⟨"call-1", none, none, none, none, none, none, none,
        runVoice (newLocals "call-1" 0)
          [VoiceEvent.speechDetected (some ⟨true, []⟩) 1000 WebhookOutcome.failed none]⟩
      5000 SaveOutcome.failed none).2).map
        (fun d => (d.summary.answered, d.summary.answered_at, d.events))
      = [(true, some 1000, [])] := by
  refine ⟨by decide, by decide, ?_⟩
  rw [onClose_reportPosts]
  rfl

/-- C7: when the webhook request fails, the error sentence is spoken once and flushed,
but the log only gains the user entry: no assistant message is appended. -/
theorem failed_webhook_not_logged (l : Locals) (transcript : String) (others : List String) (now : Int)
    (interruptAfter : Option Nat) :
    sentTokens (onSpeechDetected l (some ⟨true, transcript :: others⟩) now WebhookOutcome.failed
      interruptAfter).2 = [errorSentence] ∧
    flushCount (onSpeechDetected l (some ⟨true, transcript :: others⟩) now WebhookOutcome.failed
      interruptAfter).2 = 1 ∧
    (onSpeechDetected l (some ⟨true, transcript :: others⟩) now WebhookOutcome.failed
      interruptAfter).1.messages = l.messages ++ [⟨Role.user, transcript⟩] := by
  refine ⟨rfl, rfl, ?_⟩
  show (interruptDuring _ (recordUtterance l transcript now)).messages = _
  rw [interruptDuring_messages]
  rfl

/-- C8 (as stated) fails: two response bodies that both lack a reply field, one with
`message` "A" and one with `message` "B", are delivered as different texts, and a body
with no field at all is delivered as its JSON text; none is a fixed sentence. -/
theorem no_reply_field_counterexample :
    sentTokens (onSpeechDetected (newLocals "call-1" 0) (some ⟨true, ["hello"]⟩) 1000
      (WebhookOutcome.responded (some ⟨none, some "A", none, none, "-"⟩)) none).2 = ["A "] ∧
    sentTokens (onSpeechDetected (newLocals "call-1" 0) (some ⟨true, ["hello"]⟩) 1000
      (WebhookOutcome.responded (some ⟨none, some "B", none, none, "-"⟩)) none).2 = ["B "] ∧
    sentTokens (onSpeechDetected (newLocals "call-1" 0) (some ⟨true, ["hello"]⟩) 1000
      (WebhookOutcome.responded (some ⟨none, none, none, none, "\x7b\x7d"⟩)) none).2
      = ["\x7b\x7d "] := by
  decide

theorem deliverResponse_congr (d d2 : ResponseData) (ia : Option Nat) (l : Locals)
    (out : List HostAction) (h : responseText d = responseText d2) :
    deliverResponse d ia l out = deliverResponse d2 ia l out := by
  unfold deliverResponse
  rw [h]

/-! ## Chat sessions: theorems -/

theorem framesSent_append (a b : List ChatAction) :
    framesSent (a ++ b) = framesSent a ++ framesSent b := by
  induction a with
  | nil => rfl
  | cons x xs ih => cases x <;> simp [framesSent, ih]

/-- C5: in status ready, when the webhook answers with the non-empty reply `r`, one
`chat_message` makes the server send the single frame `bot_reply r` (no error frame)
and append to the log one user entry followed by one bot entry of content `r`. -/
theorem chat_reply_delivered_once (s : ChatSession) (content : String) (now later : Int)
    (d : ResponseData) (r : String) (bot : Bot)
    (hs : s.status = ChatStatus.ready) (hb : s.bot = some bot)
    (hr : d.reply = some r) (hne : r ≠ "") :
    framesSent (onMessage s (ClientFrame.chat_message content) now
      (WebhookOutcome.responded (some d)) later).2 = [Frame.bot_reply r] ∧
    (onMessage s (ClientFrame.chat_message content) now
      (WebhookOutcome.responded (some d)) later).1.messages =
      s.messages ++
        [{ id := "msg_" ++ toString now, type := ChatMessageType.user,
           content := content, timestamp := now },
         { id := "msg_" ++ toString later ++ "_bot", type := ChatMessageType.bot,
           content := r, timestamp := later }] := by
  have ht : truthy d.reply = true := by
    rw [hr]
    simp [truthy, hne]
  have hrun : onMessage s (ClientFrame.chat_message content) now
      (WebhookOutcome.responded (some d)) later =
      pushBotReply (pushChatMessage s now content) later r
        [ChatAction.webhookPost bot.webhook_url content s.id] := by
    unfold onMessage
    simp only [hs, ne_eq, not_true_eq_false, if_false]
    have hb1 : (pushChatMessage s now content).bot = some bot := hb
    rw [hb1]
    rw [hr] at ht
    simp only [hr, ht, if_true, Option.getD_some]
    rfl
  rw [hrun]
  constructor
  · rfl
  · simp [pushBotReply, pushChatMessage]

/-- C5 on a ready session and the reply "Hello". -/
theorem chat_reply_delivered_once_witness :
    framesSent (onMessage
      ⟨"chat_1", "bot-7", 0, "-", [], ChatStatus.ready, some ⟨true, "Bot", "http://hook", none⟩⟩
      (ClientFrame.chat_message "hi") 10
      (WebhookOutcome.responded (some ⟨some "Hello", none, none, none, "-"⟩)) 20).2
      = [Frame.bot_reply "Hello"] ∧
    (onMessage
      ⟨"chat_1", "bot-7", 0, "-", [], ChatStatus.ready, some ⟨true, "Bot", "http://hook", none⟩⟩
      (ClientFrame.chat_message "hi") 10
      (WebhookOutcome.responded (some ⟨some "Hello", none, none, none, "-"⟩)) 20).1.messages =
      ([] : List ChatMessage) ++
        [{ id := "msg_" ++ toString (10 : Int), type := ChatMessageType.user,
           content := "hi", timestamp := 10 },
         { id := "msg_" ++ toString (20 : Int) ++ "_bot", type := ChatMessageType.bot,
           content := "Hello", timestamp := 20 }] :=
  chat_reply_delivered_once
    ⟨"chat_1", "bot-7", 0, "-", [], ChatStatus.ready, some ⟨true, "Bot", "http://hook", none⟩⟩
    "hi" 10 20 ⟨some "Hello", none, none, none, "-"⟩ "Hello" ⟨true, "Bot", "http://hook", none⟩
    rfl rfl rfl (by decide)

theorem onMessage_failed (s : ChatSession) (content : String) (now later : Int) (bot : Bot)
    (hs : s.status = ChatStatus.ready) (hb : s.bot = some bot) :
    onMessage s (ClientFrame.chat_message content) now WebhookOutcome.failed later =
      pushBotReply (pushChatMessage s now content) later fallbackReply
        [ChatAction.webhookPost bot.webhook_url content s.id] := by
  unfold onMessage
  simp only [hs, ne_eq, not_true_eq_false, if_false]
  have hb1 : (pushChatMessage s now content).bot = some bot := hb
  rw [hb1]
  rfl

theorem onMessage_webhookPosts (s : ChatSession) (content : String) (now later : Int)
    (outcome : WebhookOutcome) (bot : Bot)
    (hs : s.status = ChatStatus.ready) (hb : s.bot = some bot) :
    webhookPosts (onMessage s (ClientFrame.chat_message content) now outcome later).2 =
      [content] := by
  unfold onMessage
  simp only [hs, ne_eq, not_true_eq_false, if_false]
  have hb1 : (pushChatMessage s now content).bot = some bot := hb
  rw [hb1]
  cases outcome with
  | failed => rfl
  | responded data =>
    cases data with
    | none => rfl
    | some d =>
      show webhookPosts (Prod.snd (if truthy d.reply = true then
        pushBotReply _ later (d.reply.getD "") _ else pushBotReply _ later defaultReply _)) = _
      cases truthy d.reply <;> rfl

/-- C6: in status ready, when the webhook request fails or times out, one
`chat_message` makes the server send the single frame `bot_reply` with the fixed
fallback text (no error frame) and log that text as the bot entry; the status stays
ready, and the next `chat_message` is again posted to the webhook. -/
theorem chat_webhook_failure_fallback (s : ChatSession) (content : String) (now later : Int)
    (bot : Bot) (hs : s.status = ChatStatus.ready) (hb : s.bot = some bot) :
    framesSent (onMessage s (ClientFrame.chat_message content) now
      WebhookOutcome.failed later).2 = [Frame.bot_reply fallbackReply] ∧
    (onMessage s (ClientFrame.chat_message content) now
      WebhookOutcome.failed later).1.messages =
      s.messages ++
        [{ id := "msg_" ++ toString now, type := ChatMessageType.user,
           content := content, timestamp := now },
         { id := "msg_" ++ toString later ++ "_bot", type := ChatMessageType.bot,
           content := fallbackReply, timestamp := later }] ∧
    (onMessage s (ClientFrame.chat_message content) now
      WebhookOutcome.failed later).1.status = ChatStatus.ready ∧
    ∀ (content2 : String) (now2 later2 : Int) (outcome2 : WebhookOutcome),
      webhookPosts (onMessage
        (onMessage s (ClientFrame.chat_message content) now WebhookOutcome.failed later).1
        (ClientFrame.chat_message content2) now2 outcome2 later2).2 = [content2] := by
  rw [onMessage_failed s content now later bot hs hb]
  refine ⟨rfl, ?_, hs, ?_⟩
  · simp [pushBotReply, pushChatMessage]
  · intro content2 now2 later2 outcome2
    exact onMessage_webhookPosts _ content2 now2 later2 outcome2 bot hs hb

/-- C6 on a ready session. -/
theorem chat_webhook_failure_fallback_witness :
    framesSent (onMessage
      ⟨"chat_1", "bot-7", 0, "-", [], ChatStatus.ready, some ⟨true, "Bot", "http://hook", none⟩⟩
      (ClientFrame.chat_message "hi") 10 WebhookOutcome.failed 20).2
      = [Frame.bot_reply fallbackReply] :=
  (chat_webhook_failure_fallback
    ⟨"chat_1", "bot-7", 0, "-", [], ChatStatus.ready, some ⟨true, "Bot", "http://hook", none⟩⟩
    "hi" 10 20 ⟨true, "Bot", "http://hook", none⟩ rfl rfl).1

/-- C9: a chat connection whose URL has no `bot_id`, or an empty one, gets one error
frame and a close with code 1008; the registry is returned unchanged and no session
is created. -/
theorem connection_without_bot_id (reg : Registry) (botId : Option String)
    (sessionId : String) (now : Int) (h : botId = none ∨ botId = some "") :
    onConnection reg botId sessionId now =
      (reg, [ChatAction.send (Frame.error "Bot ID required"),
             ChatAction.close (some 1008) (some "Bot ID required")], none) := by
  rcases h with h | h <;> subst h <;> rfl

/-- C9 on a connection with an empty `bot_id`. -/
theorem connection_without_bot_id_witness :
    onConnection [] (some "") "chat_1" 0 =
      ([], [ChatAction.send (Frame.error "Bot ID required"),
            ChatAction.close (some 1008) (some "Bot ID required")], none) :=
  connection_without_bot_id [] (some "") "chat_1" 0 (Or.inr rfl)

/-- C10 (as stated) fails for voice: a call that closes with an empty log still posts
its record, with no events, to the report endpoint. -/
theorem voice_close_empty_log_counterexample :
    (newLocals "call-1" 0).messages = [] ∧
    (reportPosts (onClose
      ⟨"call-1", none, none, none, none, none, none, none, newLocals "call-1" 0⟩
      5000 (SaveOutcome.saved none) none).2).length = 1 ∧
    (reportPosts (onClose
      ⟨"call-1", none, none, none, none, none, none, none, newLocals "call-1" 0⟩
      5000 (SaveOutcome.saved none) none).2).map (fun d => d.events) = [[]] := by
  refine ⟨rfl, ?_, ?_⟩
  · rw [onClose_reportPosts]
    rfl
  · rw [onClose_reportPosts]
    rfl

/-- C10 (amended): a chat session that closes with an empty log issues no storage
save request; a voice session that closes posts exactly one record to the report
endpoint whatever its log holds. -/
theorem close_with_empty_log (reg : Registry) (c : ChatConnection) (now : Int) (s : Session)
    (save : SaveOutcome) (summary : Option String) :
    (c.session.messages = [] → savePosts (onChatClose reg c now).2.2 = []) ∧
    (reportPosts (onClose s now save summary).2).length = 1 := by
  constructor
  · intro h
    unfold onChatClose
    simp [h, savePosts]
  · rw [onClose_reportPosts]
    rfl

/-- C10 (amended) on a chat session with an empty log. -/
theorem close_with_empty_log_witness :
    savePosts (onChatClose []
      ⟨⟨"chat_1", "bot-7", 0, "-", [], ChatStatus.ready, none⟩, true, true⟩ 100).2.2 = [] :=
  (close_with_empty_log []
    ⟨⟨"chat_1", "bot-7", 0, "-", [], ChatStatus.ready, none⟩, true, true⟩ 100
    ⟨"call-1", none, none, none, none, none, none, none, newLocals "call-1" 0⟩
    SaveOutcome.failed none).1 rfl

theorem chatAlternates_append :
    ∀ ts : List ChatMessageType, chatAlternates ts = true →
      chatAlternates (ts ++ [ChatMessageType.user, ChatMessageType.bot]) = true
  | [], _ => rfl
  | [_], h => by simp [chatAlternates] at h
  | ChatMessageType.user :: ChatMessageType.bot :: rest, h => by
    have h1 : chatAlternates rest = true := by simpa [chatAlternates] using h
    simpa [chatAlternates] using chatAlternates_append rest h1
  | ChatMessageType.user :: ChatMessageType.user :: _, h => by simp [chatAlternates] at h
  | ChatMessageType.bot :: _ :: _, h => by simp [chatAlternates] at h

theorem pushBotReply_types (s : ChatSession) (now later : Int) (content reply : String)
    (out : List ChatAction) :
    (pushBotReply (pushChatMessage s now content) later reply out).1.messages.map
      (fun m => m.type) =
      s.messages.map (fun m => m.type) ++ [ChatMessageType.user, ChatMessageType.bot] := by
  simp [pushBotReply, pushChatMessage]

/-- The chat handler keeps its log alternating: each frame leaves the log as it is or
appends a user entry followed by a bot entry, whatever the webhook does. -/
theorem chat_log_alternates (s : ChatSession) (frame : ClientFrame) (now later : Int)
    (outcome : WebhookOutcome)
    (h : chatAlternates (s.messages.map fun m => m.type) = true) :
    chatAlternates ((onMessage s frame now outcome later).1.messages.map fun m => m.type)
      = true := by
  cases frame with
  | malformed => exact h
  | user_details details => exact h
  | ping => exact h
  | other => exact h
  | chat_message content =>
    unfold onMessage
    by_cases hs : s.status = ChatStatus.ready
    · simp only [hs, ne_eq, not_true_eq_false, if_false]
      have key : ∀ reply out, chatAlternates
          ((pushBotReply (pushChatMessage s now content) later reply out).1.messages.map
            fun m => m.type) = true := by
        intro reply out
        rw [pushBotReply_types]
        exact chatAlternates_append _ h
      cases hb : (pushChatMessage s now content).bot with
      | none => exact key _ _
      | some bot =>
        cases outcome with
        | failed => exact key _ _
        | responded data =>
          cases data with
          | none => exact key _ _
          | some d =>
            show chatAlternates (List.map (fun m => m.type) (Prod.fst (if truthy d.reply = true
              then pushBotReply _ later (d.reply.getD "") _
              else pushBotReply _ later defaultReply _)).messages) = true
            cases truthy d.reply
            · exact key _ _
            · exact key _ _
    · simp only [hs, ne_eq, not_false_eq_true, if_true]
      exact h

/-! ## Chat sessions: status, dispatches and timers -/

theorem onMessage_statusRank (s : ChatSession) (frame : ClientFrame) (now later : Int)
    (outcome : WebhookOutcome) :
    statusRank s.status ≤ statusRank (onMessage s frame now outcome later).1.status := by
  cases frame with
  | malformed => exact Nat.le_refl _
  | ping => exact Nat.le_refl _
  | other => exact Nat.le_refl _
  | user_details details =>
    show statusRank s.status ≤ 2
    cases s.status <;> decide
  | chat_message content =>
    unfold onMessage
    by_cases hs : s.status = ChatStatus.ready
    · simp only [hs, ne_eq, not_true_eq_false, if_false]
      have key : ∀ reply out, statusRank ChatStatus.ready ≤
          statusRank (pushBotReply (pushChatMessage s now content) later reply out).1.status := by
        intro reply out
        show statusRank ChatStatus.ready ≤ statusRank s.status
        rw [hs]
      cases hb : (pushChatMessage s now content).bot with
      | none => exact key _ _
      | some bot =>
        cases outcome with
        | failed => exact key _ _
        | responded data =>
          cases data with
          | none => exact key _ _
          | some d =>
            show statusRank ChatStatus.ready ≤ statusRank (Prod.fst (if truthy d.reply = true
              then pushBotReply _ later (d.reply.getD "") _
              else pushBotReply _ later defaultReply _)).status
            cases truthy d.reply
            · exact key _ _
            · exact key _ _
    · simp only [hs, ne_eq, not_false_eq_true, if_true]
      exact Nat.le_refl _

theorem runFrames_statusRank (frames : List (ClientFrame × Int × WebhookOutcome × Int))
    (s : ChatSession) : statusRank s.status ≤ statusRank (runFrames s frames).status := by
  induction frames generalizing s with
  | nil => exact Nat.le_refl _
  | cons f rest ih =>
    obtain ⟨frame, now, outcome, later⟩ := f
    exact Nat.le_trans (onMessage_statusRank s frame now later outcome) (ih _)

theorem statusRank_ready (st : ChatStatus) (h : 2 ≤ statusRank st) : st = ChatStatus.ready := by
  cases st
  · simp [statusRank] at h
  · simp [statusRank] at h
  · rfl

/-- An event does not lower the status unless it is a lookup result handled when the
session is already ready: client frames never lower it, and the lookup callback sets
awaiting details, which is no step back from connecting or awaiting details. -/
theorem stepChat_statusRank (c : ChatConnection) (e : ChatEvent)
    (h : ∀ r, e = ChatEvent.lookup r → c.session.status ≠ ChatStatus.ready) :
    statusRank c.session.status ≤ statusRank (stepChat c e).session.status := by
  cases e with
  | message frame now outcome later => exact onMessage_statusRank _ _ _ _ _
  | lookup r =>
    have hne := h r rfl
    cases r with
    | failed => exact Nat.le_refl _
    | found bot =>
      cases bot with
      | none => exact Nat.le_refl _
      | some bot =>
        show statusRank c.session.status ≤ statusRank (onBotLookup c _).1.session.status
        unfold onBotLookup
        cases hb : bot.active
        · simp only [hb, Bool.false_eq_true, if_false]
          exact Nat.le_refl _
        · simp only [hb, if_true]
          show statusRank c.session.status ≤ 1
          cases hs : c.session.status
          · decide
          · decide
          · exact absurd hs hne

/-- Along every sequence of client frames the status of a chat session never moves
backwards in the order connecting, awaiting details, ready; once the session is ready,
no later client frame returns it to an earlier status. -/
theorem client_frames_keep_status_order (s : ChatSession)
    (frames : List (ClientFrame × Int × WebhookOutcome × Int)) :
    statusRank s.status ≤ statusRank (runFrames s frames).status ∧
    (s.status = ChatStatus.ready → (runFrames s frames).status = ChatStatus.ready) := by
  refine ⟨runFrames_statusRank frames s, ?_⟩
  intro h
  apply statusRank_ready
  have := runFrames_statusRank frames s
  rw [h] at this
  exact this

/-- C11: a `user_details` frame that is handled before the bot lookup resolves makes the
session ready, and the lookup, resolving with an active bot, then sets the status back
to awaiting details: the status moves from ready to an earlier one. The details given
stay stored, yet the next `chat_message` is refused with "Please provide your details
first" and is not sent to the webhook. -/
theorem status_moves_back_after_details :
    statusTrace ⟨⟨"chat_1", "7", 0, "-", [], ChatStatus.connecting, none⟩, true, true⟩
      [ChatEvent.message (ClientFrame.user_details "d") 10 WebhookOutcome.failed 10,
       ChatEvent.lookup (LookupOutcome.found (some ⟨true, "Bot", "http://hook", none⟩))]
      = [ChatStatus.connecting, ChatStatus.ready, ChatStatus.active] ∧
    statusRank ChatStatus.active < statusRank ChatStatus.ready ∧
    (stepChat (stepChat ⟨⟨"chat_1", "7", 0, "-", [], ChatStatus.connecting, none⟩, true, true⟩
      (ChatEvent.message (ClientFrame.user_details "d") 10 WebhookOutcome.failed 10))
      (ChatEvent.lookup (LookupOutcome.found (some ⟨true, "Bot", "http://hook", none⟩)))
      ).session.userDetails = "d" ∧
    (onMessage (stepChat (stepChat
      ⟨⟨"chat_1", "7", 0, "-", [], ChatStatus.connecting, none⟩, true, true⟩
      (ChatEvent.message (ClientFrame.user_details "d") 10 WebhookOutcome.failed 10))
      (ChatEvent.lookup (LookupOutcome.found (some ⟨true, "Bot", "http://hook", none⟩)))
      ).session (ClientFrame.chat_message "hi") 20
      (WebhookOutcome.responded (some ⟨some "Hello", none, none, none, "-"⟩)) 30).2
      = [ChatAction.send (Frame.error "Please provide your details first")] := by
  decide

/-- The handler run to completion is its start followed, when it suspended, by its
resumption on the session the start left. -/
theorem onMessage_eq_start_resume (s : ChatSession) (frame : ClientFrame) (now later : Int)
    (outcome : WebhookOutcome) :
    onMessage s frame now outcome later =
      if (onMessageStart s frame now later).2.2 then
        ((onMessageResume (onMessageStart s frame now later).1 outcome later).1,
          (onMessageStart s frame now later).2.1 ++
            (onMessageResume (onMessageStart s frame now later).1 outcome later).2)
      else ((onMessageStart s frame now later).1, (onMessageStart s frame now later).2.1) := by
  cases frame with
  | malformed => rfl
  | ping => rfl
  | other => rfl
  | user_details details => rfl
  | chat_message content =>
    unfold onMessage onMessageStart
    by_cases hs : s.status = ChatStatus.ready
    · simp only [hs, ne_eq, not_true_eq_false, if_false]
      cases hb : (pushChatMessage s now content).bot with
      | none => rfl
      | some bot =>
        simp only [if_true]
        cases outcome with
        | failed => rfl
        | responded data =>
          cases data with
          | none => rfl
          | some d =>
            simp only [onMessageResume]
            cases truthy d.reply <;> rfl
    · simp only [hs, ne_eq, not_false_eq_true, if_true, Bool.false_eq_true, if_false]

theorem webhookPosts_append (a b : List ChatAction) :
    webhookPosts (a ++ b) = webhookPosts a ++ webhookPosts b := by
  induction a with
  | nil => rfl
  | cons x xs ih => cases x <;> simp [webhookPosts, ih]

theorem onMessageStart_ready (s : ChatSession) (content : String) (now later : Int) (bot : Bot)
    (hs : s.status = ChatStatus.ready) (hb : s.bot = some bot) :
    onMessageStart s (ClientFrame.chat_message content) now later =
      (pushChatMessage s now content,
        [ChatAction.webhookPost bot.webhook_url content s.id], true) := by
  unfold onMessageStart
  simp only [hs, ne_eq, not_true_eq_false, if_false]
  have hb1 : (pushChatMessage s now content).bot = some bot := hb
  rw [hb1]
  rfl

theorem maxOutstanding_le_one (steps : List ChatStep) (r : ChatRun)
    (h0 : r.outstanding ≤ 1) (hw : waitsForReply r steps = true) :
    maxOutstanding r steps ≤ 1 := by
  induction steps generalizing r with
  | nil => exact h0
  | cons st rest ih =>
    cases st with
    | arrives frame now later =>
      simp only [waitsForReply, Bool.and_eq_true, decide_eq_true_eq] at hw
      have hnext : (stepRun r (ChatStep.arrives frame now later)).outstanding ≤ 1 := by
        show (if (onMessageStart r.session frame now later).2.2 = true then r.outstanding + 1
          else r.outstanding) ≤ 1
        split <;> omega
      exact Nat.max_le.mpr ⟨h0, ih _ hnext hw.2⟩
    | settles outcome later =>
      simp only [waitsForReply] at hw
      have hnext : (stepRun r (ChatStep.settles outcome later)).outstanding ≤ 1 := by
        show (if r.outstanding = 0 then r else _).outstanding ≤ 1
        split
        · exact h0
        · show r.outstanding - 1 ≤ 1
          omega
      exact Nat.max_le.mpr ⟨h0, ih _ hnext hw⟩

/-- C12 (as stated) fails: two `chat_message` frames that arrive one after the other,
before any response, both issue their webhook request, so two requests of the session
await their response at the same time. -/
theorem concurrent_dispatch_counterexample :
    (runSteps
      ⟨⟨"chat_1", "7", 0, "-", [], ChatStatus.ready, some ⟨true, "Bot", "http://hook", none⟩⟩,
        0, []⟩
      [ChatStep.arrives (ClientFrame.chat_message "a") 10 10,
       ChatStep.arrives (ClientFrame.chat_message "b") 11 11]).outstanding = 2 ∧
    webhookPosts (runSteps
      ⟨⟨"chat_1", "7", 0, "-", [], ChatStatus.ready, some ⟨true, "Bot", "http://hook", none⟩⟩,
        0, []⟩
      [ChatStep.arrives (ClientFrame.chat_message "a") 10 10,
       ChatStep.arrives (ClientFrame.chat_message "b") 11 11]).out = ["a", "b"] := by
  decide

/-- C12 (amended): when every frame arrives while no webhook request of the session
awaits its response, never more than one request is outstanding; the handler itself
does not hold a `chat_message` back: in status ready, with the bot set, every
`chat_message` issues its request on arrival and adds one to the requests outstanding. -/
theorem dispatch_per_chat_message (r : ChatRun) (steps : List ChatStep) (content : String)
    (now later : Int) (bot : Bot) :
    (r.outstanding = 0 → waitsForReply r steps = true → maxOutstanding r steps ≤ 1) ∧
    (r.session.status = ChatStatus.ready → r.session.bot = some bot →
      (stepRun r (ChatStep.arrives (ClientFrame.chat_message content) now later)).outstanding
        = r.outstanding + 1 ∧
      webhookPosts
        (stepRun r (ChatStep.arrives (ClientFrame.chat_message content) now later)).out
        = webhookPosts r.out ++ [content] ∧
      (stepRun r (ChatStep.arrives (ClientFrame.chat_message content) now later)).session.status
        = ChatStatus.ready) := by
  constructor
  · intro h0 hw
    exact maxOutstanding_le_one steps r (by omega) hw
  · intro hs hb
    have hstart := onMessageStart_ready r.session content now later bot hs hb
    refine ⟨?_, ?_, ?_⟩
    · show (if (onMessageStart r.session _ now later).2.2 = true then r.outstanding + 1
        else r.outstanding) = _
      rw [hstart]
      rfl
    · show webhookPosts (r.out ++ (onMessageStart r.session _ now later).2.1) = _
      rw [hstart, webhookPosts_append]
      rfl
    · show (onMessageStart r.session _ now later).1.status = _
      rw [hstart]
      exact hs

/-- C12 (amended) on a client that waits for the reply, and on a second message that
arrives during an outstanding request. -/
theorem dispatch_per_chat_message_witness :
    maxOutstanding
      ⟨⟨"chat_1", "7", 0, "-", [], ChatStatus.ready, some ⟨true, "Bot", "http://hook", none⟩⟩,
        0, []⟩
      [ChatStep.arrives (ClientFrame.chat_message "a") 10 10,
       ChatStep.settles WebhookOutcome.failed 20,
       ChatStep.arrives (ClientFrame.chat_message "b") 30 30] ≤ 1 ∧
    (stepRun
      ⟨⟨"chat_1", "7", 0, "-", [], ChatStatus.ready, some ⟨true, "Bot", "http://hook", none⟩⟩,
        1, []⟩
      (ChatStep.arrives (ClientFrame.chat_message "b") 11 11)).outstanding = 1 + 1 :=
  ⟨(dispatch_per_chat_message
      ⟨⟨"chat_1", "7", 0, "-", [], ChatStatus.ready, some ⟨true, "Bot", "http://hook", none⟩⟩,
        0, []⟩
      [ChatStep.arrives (ClientFrame.chat_message "a") 10 10,
       ChatStep.settles WebhookOutcome.failed 20,
       ChatStep.arrives (ClientFrame.chat_message "b") 30 30]
      "b" 11 11 ⟨true, "Bot", "http://hook", none⟩).1 rfl (by decide),
   ((dispatch_per_chat_message
      ⟨⟨"chat_1", "7", 0, "-", [], ChatStatus.ready, some ⟨true, "Bot", "http://hook", none⟩⟩,
        1, []⟩
      [] "b" 11 11 ⟨true, "Bot", "http://hook", none⟩).2 rfl rfl).1⟩

/-- C13: the `close` handler of a chat socket cancels the admission timer only; the
heartbeat timer set up at connection is still scheduled when the handler has run. The
`error` handler cancels both. -/
theorem close_leaves_heartbeat_scheduled :
    (onConnection [] (some "7") "chat_1" 0).2.2 =
      some ⟨⟨"chat_1", "7", 0, "\x7b\x7d", [], ChatStatus.connecting, none⟩, true, true⟩ ∧
    (onChatClose [] ⟨⟨"chat_1", "7", 0, "\x7b\x7d", [], ChatStatus.connecting, none⟩, true, true⟩
      100).2.1.connectionTimeout = false ∧
    (onChatClose [] ⟨⟨"chat_1", "7", 0, "\x7b\x7d", [], ChatStatus.connecting, none⟩, true, true⟩
      100).2.1.heartbeat = true ∧
    (onChatError [] ⟨⟨"chat_1", "7", 0, "\x7b\x7d", [], ChatStatus.connecting, none⟩, true,
      true⟩).2.connectionTimeout = false ∧
    (onChatError [] ⟨⟨"chat_1", "7", 0, "\x7b\x7d", [], ChatStatus.connecting, none⟩, true,
      true⟩).2.heartbeat = false := by
  decide

/-! ## Records, summaries and the report route: theorems -/

/-- The whole seconds that `onClose` formats: the floor of the host duration when it is
present and not zero, the floor of the wall-clock difference otherwise. -/
theorem totalDurationSeconds_cases (s : Session) (now : Int) :
    (∀ d : ℚ, s.duration = some d → d ≠ 0 → totalDurationSeconds s now = ⌊d⌋) ∧
    (s.duration = none ∨ s.duration = some 0 →
      totalDurationSeconds s now = ⌊((now - s.locals.startTime : Int) : ℚ) / 1000⌋) := by
  constructor
  · intro d hd hne
    unfold totalDurationSeconds
    rw [hd]
    simp only [hne, if_false]
  · intro h
    unfold totalDurationSeconds
    rcases h with h | h <;> rw [h]
    simp only [if_true]

/-- C14 (as stated) fails for chat, and for voice durations whose minutes reach 10^21:
a chat session with one exchange in its log that closes 125 seconds after it started
sends a record whose `duration_minutes` is the number 2, not a string; a voice duration
of 6 * 10^22 seconds is printed without decimals, in exponent form. -/
theorem chat_duration_counterexample :
    savePosts (onChatClose []
      ⟨⟨"chat_1", "7", 0, "-",
        [⟨"msg_10", ChatMessageType.user, "hi", 10⟩, ⟨"msg_20_bot", ChatMessageType.bot, "Hello", 20⟩],
        ChatStatus.ready, none⟩, false, true⟩ 125000).2.2 =
      [chatConversationData ⟨"chat_1", "7", 0, "-",
        [⟨"msg_10", ChatMessageType.user, "hi", 10⟩, ⟨"msg_20_bot", ChatMessageType.bot, "Hello", 20⟩],
        ChatStatus.ready, none⟩ 125000] ∧
    chatDurationField (chatConversationData ⟨"chat_1", "7", 0, "-",
        [⟨"msg_10", ChatMessageType.user, "hi", 10⟩, ⟨"msg_20_bot", ChatMessageType.bot, "Hello", 20⟩],
        ChatStatus.ready, none⟩ 125000) = JsValue.number 2 ∧
    JsValue.number 2 ≠ JsValue.string (durationDisplay 125) ∧
    durationDisplay 60000000000000000000000 = "1e+21m" := by
  refine ⟨rfl, ?_, by decide, by decide⟩
  show JsValue.number ⌊(((125000 : Int) - 0 : Int) : ℚ) / 1000 / 60⌋ = JsValue.number 2
  congr 1
  rw [Int.floor_eq_iff]
  norm_num

/-- C14 (amended): the record a voice session posts at close carries its duration as a
string `text`: the numeral of the whole seconds then "s" when they are under 60; when
they are at least 60 and below `60 * 2^69`, a whole part, a point, exactly two digits
and "m", and below `60 * 2^44` that numeral is the seconds over 60 rounded to two
places. The record a chat session with a non-empty log sends carries as
`duration_minutes` the whole number of minutes between start and end, a number. -/
theorem duration_fields (s : Session) (now : Int) (save : SaveOutcome)
    (summary : Option String) (reg : Registry) (c : ChatConnection) (cnow : Int) :
    (∃ text : String,
      (reportPosts (onClose s now save summary).2).map voiceDurationField =
        [JsValue.string text] ∧
      (totalDurationSeconds s now < 60 →
        text = toString (totalDurationSeconds s now) ++ "s") ∧
      (60 ≤ totalDurationSeconds s now → totalDurationSeconds s now < 60 * 2 ^ 69 →
        ∃ whole d1 d2 : Nat, d1 < 10 ∧ d2 < 10 ∧
          text = toString whole ++ "." ++
            String.mk [Char.ofNat (48 + d1), Char.ofNat (48 + d2)] ++ "m" ∧
          (totalDurationSeconds s now < 60 * 2 ^ 44 →
            |((100 * whole + 10 * d1 + d2 : Nat) : ℚ) / 100 -
              ((totalDurationSeconds s now : Int) : ℚ) / 60| < 1 / 200))) ∧
    (c.session.messages ≠ [] →
      (savePosts (onChatClose reg c cnow).2.2).map chatDurationField =
        [JsValue.number ⌊((cnow - c.session.startTime : Int) : ℚ) / 1000 / 60⌋]) := by
  constructor
  · refine ⟨durationDisplay (totalDurationSeconds s now), ?_, ?_, ?_⟩
    · rw [onClose_reportPosts]
      rfl
    · intro h
      unfold durationDisplay
      rw [if_pos h]
    · intro h60 h69
      obtain ⟨k, hk⟩ : ∃ k : Nat, (k : Int) = totalDurationSeconds s now :=
        ⟨(totalDurationSeconds s now).toNat, Int.toNat_of_nonneg (by omega)⟩
      rw [← hk] at h60 h69 ⊢
      have hk60 : 60 ≤ k := by exact_mod_cast h60
      have hk69 : k < 60 * 2 ^ 69 := by exact_mod_cast h69
      obtain ⟨whole, d1, d2, hd1, hd2, hsum, htext⟩ :=
        fixedText_form (hundredths (divideDoubles k 60))
      refine ⟨whole, d1, d2, hd1, hd2, ?_, ?_⟩
      · rw [durationDisplay_two_decimals k hk60 hk69, htext]
      · intro h44
        have hk44 : k < 60 * 2 ^ 44 := by exact_mod_cast h44
        rw [hsum, (hundredths_small k hk44).2]
        have := toFixed2_hundredths k
        simpa using this
  · intro hne
    have hpos : 0 < c.session.messages.length := List.length_pos.mpr hne
    unfold onChatClose
    simp only [hpos, if_true]
    rfl

/-- C14 (amended) on a call with a host duration of 45 seconds, one of 125 seconds, and
a chat session with one entry in its log. -/
theorem duration_fields_witness :
    (∃ text : String,
      (reportPosts (onClose
        ⟨"call-1", none, none, none, none, none, none, some 45, newLocals "call-1" 0⟩
        99000 SaveOutcome.failed none).2).map voiceDurationField = [JsValue.string text] ∧
      text = toString (totalDurationSeconds
        ⟨"call-1", none, none, none, none, none, none, some 45, newLocals "call-1" 0⟩ 99000)
        ++ "s") ∧
    (∃ text : String,
      (reportPosts (onClose
        ⟨"call-1", none, none, none, none, none, none, some 125, newLocals "call-1" 0⟩
        99000 SaveOutcome.failed none).2).map voiceDurationField = [JsValue.string text] ∧
      ∃ whole d1 d2 : Nat, d1 < 10 ∧ d2 < 10 ∧
        text = toString whole ++ "." ++
          String.mk [Char.ofNat (48 + d1), Char.ofNat (48 + d2)] ++ "m") ∧
    (savePosts (onChatClose []
      ⟨⟨"chat_1", "7", 0, "-", [⟨"msg_10", ChatMessageType.user, "hi", 10⟩],
        ChatStatus.ready, none⟩, false, true⟩ 125000).2.2).map chatDurationField =
      [JsValue.number ⌊((125000 - (0 : Int) : Int) : ℚ) / 1000 / 60⌋] := by
  have h45 : totalDurationSeconds
      ⟨"call-1", none, none, none, none, none, none, some 45, newLocals "call-1" 0⟩ 99000
      = 45 := by
    rw [(totalDurationSeconds_cases _ 99000).1 45 rfl (by norm_num), Int.floor_eq_iff]
    norm_num
  have h125 : totalDurationSeconds
      ⟨"call-1", none, none, none, none, none, none, some 125, newLocals "call-1" 0⟩ 99000
      = 125 := by
    rw [(totalDurationSeconds_cases _ 99000).1 125 rfl (by norm_num), Int.floor_eq_iff]
    norm_num
  refine ⟨?_, ?_, ?_⟩
  · obtain ⟨text, hpost, hsec, _⟩ := (duration_fields
      ⟨"call-1", none, none, none, none, none, none, some 45, newLocals "call-1" 0⟩
      99000 SaveOutcome.failed none []
      ⟨⟨"chat_1", "7", 0, "-", [], ChatStatus.ready, none⟩, false, true⟩ 0).1
    exact ⟨text, hpost, hsec (by rw [h45]; decide)⟩
  · obtain ⟨text, hpost, _, hmin⟩ := (duration_fields
      ⟨"call-1", none, none, none, none, none, none, some 125, newLocals "call-1" 0⟩
      99000 SaveOutcome.failed none []
      ⟨⟨"chat_1", "7", 0, "-", [], ChatStatus.ready, none⟩, false, true⟩ 0).1
    obtain ⟨whole, d1, d2, hd1, hd2, htext, _⟩ :=
      hmin (by rw [h125]; decide) (by rw [h125]; norm_num)
    exact ⟨text, hpost, whole, d1, d2, hd1, hd2, htext⟩
  · exact (duration_fields
      ⟨"call-1", none, none, none, none, none, none, some 45, newLocals "call-1" 0⟩
      99000 SaveOutcome.failed none []
      ⟨⟨"chat_1", "7", 0, "-", [⟨"msg_10", ChatMessageType.user, "hi", 10⟩],
        ChatStatus.ready, none⟩, false, true⟩ 125000).2 (by decide)

/-- C15: a host duration of 0 is not used. For a call that the host reports with
duration 0 and that closes 125 seconds after it started, the whole seconds formatted
are the 125 of the wall clock and the record says "2.08m", where the floor of the host
duration gives "0s". -/
theorem zero_host_duration_ignored :
    totalDurationSeconds
      ⟨"call-1", none, none, none, none, none, none, some 0, newLocals "call-1" 0⟩ 125000
      = 125 ∧
    (conversationData
      ⟨"call-1", none, none, none, none, none, none, some 0, newLocals "call-1" 0⟩
      125000).summary.duration_minutes = "2.08m" ∧
    durationDisplay ⌊(0 : ℚ)⌋ = "0s" := by
  have h : totalDurationSeconds
      ⟨"call-1", none, none, none, none, none, none, some 0, newLocals "call-1" 0⟩ 125000
      = 125 := by
    show (if (0 : ℚ) = 0 then ⌊(((125000 : Int) - 0 : Int) : ℚ) / 1000⌋ else ⌊(0 : ℚ)⌋) = 125
    rw [if_pos rfl, Int.floor_eq_iff]
    norm_num
  refine ⟨h, ?_, ?_⟩
  · show durationDisplay (totalDurationSeconds _ 125000) = "2.08m"
    rw [h]
    decide
  · rw [Int.floor_zero]
    decide

/-- C16: the transcript the summarizer builds from a chat log reads `sender` and
`message`, which chat entries do not have: every line is "assistant: undefined". For
the log of "hi" answered by "Hello" the text differs from the transcript of roles and
contents. -/
theorem chat_transcript_without_content (s : ChatSession) :
    conversationText (s.messages.map chatEntryAsRead) =
      "\n".intercalate (s.messages.map fun _ => "assistant: undefined") ∧
    transcripts (saveConversationToDatabase
      ⟨"chat_1", "7", 0, "-",
        [⟨"msg_10", ChatMessageType.user, "hi", 10⟩, ⟨"msg_20_bot", ChatMessageType.bot, "Hello", 20⟩],
        ChatStatus.ready, none⟩ 125000 (SaveOutcome.saved (some "conv_1")) (some "sum")) =
      ["assistant: undefined\nassistant: undefined"] ∧
    expectedTranscript
      [⟨"msg_10", ChatMessageType.user, "hi", 10⟩, ⟨"msg_20_bot", ChatMessageType.bot, "Hello", 20⟩]
      = "user: hi\nassistant: Hello" := by
  refine ⟨?_, by decide, by decide⟩
  unfold conversationText
  rw [List.map_map]
  rfl

/-- C17: the events of the record a voice session posts at close are as many as the
messages of its log; the `i`-th event has type `user_input` for a user message and
`agent_response` otherwise, carries the content of the `i`-th message, and its
timestamp is the start time plus `i` seconds (in milliseconds). -/
theorem events_of_log (s : Session) (now : Int) (save : SaveOutcome)
    (summary : Option String) :
    ∃ data : ConversationData,
      reportPosts (onClose s now save summary).2 = [data] ∧
      data.events.length = s.locals.messages.length ∧
      ∀ (i : Nat) (m : Message), s.locals.messages[i]? = some m →
        ∃ e : RecordEvent, data.events[i]? = some e ∧
          e.type = (if m.role = Role.user then EventType.user_input
            else EventType.agent_response) ∧
          (m.role = Role.user → e.user_transcript = some m.content) ∧
          (m.role = Role.assistant → e.agent_response = some m.content) ∧
          e.timestamp = s.locals.startTime + (i : Int) * 1000 := by
  refine ⟨_, onClose_reportPosts s now save summary, ?_, ?_⟩
  · show (toEvents s.locals.startTime s.locals.messages).length = _
    unfold toEvents
    rw [List.length_mapIdx]
  · intro i m hm
    refine ⟨{ type := if m.role = Role.user then EventType.user_input
                else EventType.agent_response
              user_transcript := if m.role = Role.user then some m.content else none
              agent_response := if m.role = Role.assistant then some m.content else none
              timestamp := s.locals.startTime + (i : Int) * 1000 }, ?_, rfl, ?_, ?_, rfl⟩
    · show (toEvents s.locals.startTime s.locals.messages)[i]? = _
      unfold toEvents
      rw [List.getElem?_mapIdx, hm]
      rfl
    · intro h
      simp only [h, if_true]
    · intro h
      simp only [h, if_true]

/-- C17 on the second message of a log of two. -/
theorem events_of_log_witness :
    ∃ e : RecordEvent,
      (conversationData
        ⟨"call-1", none, none, none, none, none, none, none,
          { newLocals "call-1" 500 with
            messages := [⟨Role.user, "hello"⟩, ⟨Role.assistant, "yes"⟩] }⟩ 9000).events[1]?
        = some e ∧
      e.type = EventType.agent_response ∧ e.agent_response = some "yes" ∧
      e.timestamp = 500 + 1000 := by
  obtain ⟨data, hpost, _, hev⟩ := events_of_log
    ⟨"call-1", none, none, none, none, none, none, none,
      { newLocals "call-1" 500 with
        messages := [⟨Role.user, "hello"⟩, ⟨Role.assistant, "yes"⟩] }⟩ 9000
    SaveOutcome.failed none
  rw [onClose_reportPosts] at hpost
  obtain ⟨e, he, ht, _, ha, hts⟩ := hev 1 ⟨Role.assistant, "yes"⟩ rfl
  have hd := (List.cons.inj hpost).1
  refine ⟨e, ?_, ht, ha rfl, hts⟩
  rw [← he, ← hd]
  rfl

/-- C18 (as stated) fails: for the record of a call in which the user never spoke and
that the host reports as 45 seconds long, the record says not answered and "45s",
while the payload the report route would forward says answered and the number 0. -/
theorem report_transform_counterexample :
    (conversationData
      ⟨"call-1", none, none, none, none, none, none, some 45, newLocals "call-1" 0⟩
      99000).summary.answered = false ∧
    (transformReport (bodyOfRecord (conversationData
      ⟨"call-1", none, none, none, none, none, none, some 45, newLocals "call-1" 0⟩
      99000)) 99500).summary.answered = true ∧
    voiceDurationField (conversationData
      ⟨"call-1", none, none, none, none, none, none, some 45, newLocals "call-1" 0⟩
      99000) = JsValue.string "45s" ∧
    (transformReport (bodyOfRecord (conversationData
      ⟨"call-1", none, none, none, none, none, none, some 45, newLocals "call-1" 0⟩
      99000)) 99500).summary.duration = JsValue.number 0 := by
  refine ⟨rfl, rfl, ?_, rfl⟩
  have h45 : totalDurationSeconds
      ⟨"call-1", none, none, none, none, none, none, some 45, newLocals "call-1" 0⟩ 99000
      = 45 := by
    rw [(totalDurationSeconds_cases _ 99000).1 45 rfl (by norm_num), Int.floor_eq_iff]
    norm_num
  have hfield : voiceDurationField (conversationData
      ⟨"call-1", none, none, none, none, none, none, some 45, newLocals "call-1" 0⟩ 99000) =
      JsValue.string (durationDisplay (totalDurationSeconds
        ⟨"call-1", none, none, none, none, none, none, some 45, newLocals "call-1" 0⟩
        99000)) := rfl
  rw [hfield, h45]
  decide

/-- C18 (amended): the report route takes `answered`, `duration` and `events` from the
top level of the body and never from its `summary`. For a body that has them there,
the forwarded `answered` is the body's, the forwarded duration is the body's when that
is not 0 or empty, and the forwarded events are the body's. A voice record has only
`events` there: its events are forwarded as they are, the forwarded `answered` is
true and the forwarded duration is the number 0, whatever its `summary` says. -/
theorem report_transform_reads_top_level (body : ReportBody) (d : ConversationData)
    (now : Int) :
    (∀ b : Bool, body.answered = some b →
      (transformReport body now).summary.answered = b) ∧
    (body.answered = none → (transformReport body now).summary.answered = true) ∧
    (∀ v : JsValue, body.duration = some v → truthyValue (some v) = true →
      (transformReport body now).summary.duration = v) ∧
    (body.duration = none → (transformReport body now).summary.duration = JsValue.number 0) ∧
    (∀ events : List RecordEvent, body.events = some events →
      (transformReport body now).events = events) ∧
    (∀ other : Option RecordSummary,
      transformReport { body with summary := other } now = transformReport body now) ∧
    (transformReport (bodyOfRecord d) now).events = d.events ∧
    (transformReport (bodyOfRecord d) now).summary.answered = true ∧
    (transformReport (bodyOfRecord d) now).summary.duration = JsValue.number 0 := by
  refine ⟨?_, ?_, ?_, ?_, ?_, fun _ => rfl, rfl, rfl, rfl⟩
  · intro b hb
    unfold transformReport
    simp only [hb]
    cases b <;> rfl
  · intro hb
    unfold transformReport
    simp only [hb]
    rfl
  · intro v hv ht
    unfold transformReport
    simp only [hv, ht, if_true]
    rfl
  · intro hv
    unfold transformReport
    simp only [hv]
    rfl
  · intro events he
    unfold transformReport
    simp only [he]

/-- C18 (amended) on a flat body that says not answered, 45 seconds and no events. -/
theorem report_transform_reads_top_level_witness :
    (transformReport
      ⟨some "call-1", none, none, none, none, none, some (JsValue.number 45), some false,
        none, none, none, none, some [], none, none, none, none⟩ 99500).summary.answered
      = false ∧
    (transformReport
      ⟨some "call-1", none, none, none, none, none, some (JsValue.number 45), some false,
        none, none, none, none, some [], none, none, none, none⟩ 99500).summary.duration
      = JsValue.number 45 ∧
    (transformReport
      ⟨some "call-1", none, none, none, none, none, some (JsValue.number 45), some false,
        none, none, none, none, some [], none, none, none, none⟩ 99500).events = [] :=
  ⟨(report_transform_reads_top_level
      ⟨some "call-1", none, none, none, none, none, some (JsValue.number 45), some false,
        none, none, none, none, some [], none, none, none, none⟩
      (conversationData
        ⟨"call-1", none, none, none, none, none, none, some 45, newLocals "call-1" 0⟩ 99000)
      99500).1 false rfl,
   (report_transform_reads_top_level
      ⟨some "call-1", none, none, none, none, none, some (JsValue.number 45), some false,
        none, none, none, none, some [], none, none, none, none⟩
      (conversationData
        ⟨"call-1", none, none, none, none, none, none, some 45, newLocals "call-1" 0⟩ 99000)
      99500).2.2.1 (JsValue.number 45) rfl (by decide),
   (report_transform_reads_top_level
      ⟨some "call-1", none, none, none, none, none, some (JsValue.number 45), some false,
        none, none, none, none, some [], none, none, none, none⟩
      (conversationData
        ⟨"call-1", none, none, none, none, none, none, some 45, newLocals "call-1" 0⟩ 99000)
      99500).2.2.2.2.1 [] rfl⟩

/-! ## Voice sessions: delivery in chunks -/

theorem splitSpaces_spec (cs : List Char) :
    ∃ w ws, splitSpaces cs = w :: ws ∧ w ++ ws.flatMap (fun a => ' ' :: a) = cs := by
  induction cs with
  | nil => exact ⟨[], [], rfl, rfl⟩
  | cons c cs ih =>
    obtain ⟨w, ws, h, hcs⟩ := ih
    by_cases hc : c = ' '
    · refine ⟨[], w :: ws, ?_, ?_⟩
      · simp only [splitSpaces, hc, if_true, h]
      · simp only [List.flatMap_cons, List.nil_append, List.cons_append, hc]
        rw [hcs]
    · refine ⟨c :: w, ws, ?_, ?_⟩
      · simp only [splitSpaces, hc, if_false, h]
      · simp only [List.cons_append, hcs]

theorem intercalate_go_data (ws : List String) (acc : String) :
    (String.intercalate.go acc " " ws).data =
      acc.data ++ ws.flatMap (fun a => ' ' :: a.data) := by
  induction ws generalizing acc with
  | nil => simp [String.intercalate.go]
  | cons a ws ih =>
    simp only [String.intercalate.go, ih, String.data_append, List.flatMap_cons]
    simp

/-- Splitting a text at its spaces and joining the words with single spaces gives the
text back. -/
theorem join_split (text : String) : join (split text) = text := by
  obtain ⟨w, ws, h, hcs⟩ := splitSpaces_spec text.data
  apply String.ext
  unfold join split
  rw [h]
  show (String.intercalate.go (String.mk w) " " (ws.map String.mk)).data = text.data
  rw [intercalate_go_data, List.flatMap_map]
  exact hcs

theorem split_length_pos (text : String) : 1 ≤ (split text).length := by
  obtain ⟨w, ws, h, _⟩ := splitSpaces_spec text.data
  unfold split
  rw [h]
  simp

/-- Cutting a list into slices of five, `n` slices being enough, and appending the
slices gives the list back. -/
theorem flatMap_chunkWords (n : Nat) (words : List String)
    (h : words.length ≤ chunkSize * n) :
    (List.range n).flatMap (chunkWords words) = words := by
  induction n generalizing words with
  | zero =>
    have : words.length = 0 := by simpa using h
    rw [List.length_eq_zero] at this
    rw [this]
    rfl
  | succ n ih =>
    rw [List.range_succ_eq_map, List.flatMap_cons, List.flatMap_map]
    have hstep : (fun j => chunkWords words (Nat.succ j)) = chunkWords (words.drop chunkSize) := by
      funext j
      unfold chunkWords
      rw [List.drop_drop]
      congr 2
      rw [Nat.succ_eq_add_one, Nat.mul_add, Nat.mul_one, Nat.add_comm]
    have hrest : (List.range n).flatMap (fun j => chunkWords words (Nat.succ j)) =
        words.drop chunkSize := by
      rw [hstep]
      apply ih
      rw [List.length_drop]
      have h5 : chunkSize * (n + 1) = chunkSize * n + chunkSize := by ring
      omega
    show chunkWords words 0 ++ _ = words
    rw [hrest]
    unfold chunkWords
    rw [Nat.mul_zero, List.drop_zero]
    exact List.take_append_drop _ _

theorem chunkWords_length (words : List String) (j : Nat) :
    (chunkWords words j).length = min chunkSize (words.length - chunkSize * j) := by
  unfold chunkWords
  rw [List.length_take, List.length_drop]

/-- The loop without an interrupt, started at chunk `j` with the flag lowered: the
`n` chunks left are sent, and the locals are as before. -/
theorem deliver_uninterrupted (words : List String) :
    ∀ (n j fuel : Nat) (l : Locals) (out : List HostAction),
      l.user_interrupt = false → words.length ≤ chunkSize * (j + n) →
      (∀ t, t < j + n → chunkSize * t < words.length) → n ≤ fuel →
      deliver words none fuel (chunkSize * j) l out =
        (l, out ++ (List.range' j n).map fun t => HostAction.sendTtsTokens (chunkAt words t)) := by
  intro n
  induction n with
  | zero =>
    intro j fuel l out _ hlen _ _
    have hi : ¬ chunkSize * j < words.length := by
      rw [Nat.add_zero] at hlen
      omega
    cases fuel with
    | zero => simp [deliver]
    | succ f =>
      unfold deliver
      simp [hi]
  | succ n ih =>
    intro j fuel l out hflag hlen hall hfuel
    obtain ⟨f, rfl⟩ : ∃ f, fuel = f + 1 := ⟨fuel - 1, by omega⟩
    have hj : chunkSize * j < words.length := hall j (by omega)
    rw [deliver_flag_lowered words _ _ _ _ _ hj hflag]
    have hdec : decide ((none : Option Nat) = some (j + 1)) = false := by simp
    rw [hdec]
    have hl : interruptDuring false l = l := rfl
    rw [hl, ih (j + 1) f l _ hflag (by rw [show j + 1 + n = j + (n + 1) by omega]; exact hlen)
      (fun t ht => hall t (by omega)) (by omega)]
    simp [List.range', List.append_assoc]

theorem chunkCount_bounds (w : Nat) (hw : 1 ≤ w) :
    1 ≤ chunkCount w ∧ chunkSize * (chunkCount w - 1) < w ∧ w ≤ chunkSize * chunkCount w ∧
    chunkCount w ≤ w := by
  unfold chunkCount chunkSize
  omega

/-- C19: a non-empty reply text of `w` words, delivered without an interrupt, is sent
in `w / 5` rounded up chunks; every chunk but the last holds 5 words and the last
between 1 and 5; each chunk is its words joined by single spaces plus a trailing
space; the words of the chunks, in order and joined by single spaces, are the reply
text; one flush follows and the assistant message logged is the full reply text. -/
theorem uninterrupted_delivery (l : Locals) (transcript : String) (others : List String) (now : Int)
    (d : ResponseData) (words : List String) (hne : responseText d ≠ "")
    (hwords : words = split (responseText d)) :
    sentTokens (onSpeechDetected l (some ⟨true, transcript :: others⟩) now
      (WebhookOutcome.responded (some d)) none).2
      = (List.range (chunkCount words.length)).map (chunkAt words) ∧
    (sentTokens (onSpeechDetected l (some ⟨true, transcript :: others⟩) now
      (WebhookOutcome.responded (some d)) none).2).length = chunkCount words.length ∧
    (chunkSize * (chunkCount words.length - 1) < words.length ∧
      words.length ≤ chunkSize * chunkCount words.length) ∧
    (∀ j, j + 1 < chunkCount words.length → (chunkWords words j).length = 5) ∧
    (1 ≤ (chunkWords words (chunkCount words.length - 1)).length ∧
      (chunkWords words (chunkCount words.length - 1)).length ≤ 5) ∧
    (∀ j, chunkAt words j = join (chunkWords words j) ++ " ") ∧
    join ((List.range (chunkCount words.length)).flatMap (chunkWords words))
      = responseText d ∧
    flushCount (onSpeechDetected l (some ⟨true, transcript :: others⟩) now
      (WebhookOutcome.responded (some d)) none).2 = 1 ∧
    (onSpeechDetected l (some ⟨true, transcript :: others⟩) now
      (WebhookOutcome.responded (some d)) none).1.messages
      = l.messages ++ [⟨Role.user, transcript⟩, ⟨Role.assistant, responseText d⟩] := by
  have hpos : 1 ≤ words.length := by
    rw [hwords]
    exact split_length_pos _
  obtain ⟨hn1, hlow, hhigh, hnle⟩ := chunkCount_bounds words.length hpos
  have h5 : chunkSize = 5 := rfl
  have hdec : decide ((none : Option Nat) = some 0) = false := by simp
  have hrun : onSpeechDetected l (some ⟨true, transcript :: others⟩) now
      (WebhookOutcome.responded (some d)) none =
      deliverResponse d none (recordUtterance l transcript now)
        [HostAction.reply,
          HostAction.webhookPost transcript (recordUtterance l transcript now).sessionId] := by
    show deliverResponse d none
      (interruptDuring (decide ((none : Option Nat) = some 0))
        (recordUtterance l transcript now)) _ = _
    rw [hdec]
    rfl
  have hloop := deliver_uninterrupted words (chunkCount words.length) 0 words.length
    { recordUtterance l transcript now with assistantResponse := responseText d }
    [HostAction.reply,
      HostAction.webhookPost transcript (recordUtterance l transcript now).sessionId]
    rfl (by rw [Nat.zero_add]; exact hhigh)
    (by
      intro t ht
      have : chunkSize * t ≤ chunkSize * (chunkCount words.length - 1) :=
        Nat.mul_le_mul_left _ (by omega)
      omega)
    hnle
  rw [Nat.mul_zero, ← List.range_eq_range'] at hloop
  have hresult : onSpeechDetected l (some ⟨true, transcript :: others⟩) now
      (WebhookOutcome.responded (some d)) none =
      ({ recordUtterance l transcript now with
          messages := (recordUtterance l transcript now).messages ++
            [⟨Role.assistant, responseText d⟩]
          assistantResponse := "" },
        ([HostAction.reply,
          HostAction.webhookPost transcript (recordUtterance l transcript now).sessionId] ++
          (List.range (chunkCount words.length)).map fun t =>
            HostAction.sendTtsTokens (chunkAt words t)) ++ [HostAction.flushTtsTokens]) := by
    rw [hrun]
    unfold deliverResponse
    simp only [hne, if_false]
    rw [← hwords, hloop]
    rfl
  have hsent : sentTokens (onSpeechDetected l (some ⟨true, transcript :: others⟩) now
      (WebhookOutcome.responded (some d)) none).2
      = (List.range (chunkCount words.length)).map (chunkAt words) := by
    rw [hresult]
    show sentTokens (_ ++ _) = _
    rw [sentTokens_append, sentTokens_append, sentTokens_map]
    simp [sentTokens]
  refine ⟨hsent, ?_, ⟨hlow, hhigh⟩, ?_, ?_, fun _ => rfl, ?_, ?_, ?_⟩
  · rw [hsent, List.length_map, List.length_range]
  · intro j hj
    rw [chunkWords_length]
    have : chunkSize * (j + 1) ≤ chunkSize * (chunkCount words.length - 1) :=
      Nat.mul_le_mul_left _ (by omega)
    rw [Nat.mul_add, Nat.mul_one] at this
    omega
  · rw [chunkWords_length]
    omega
  · rw [flatMap_chunkWords _ _ hhigh, hwords]
    exact join_split _
  · rw [hresult]
    show flushCount (_ ++ _) = _
    rw [flushCount_append, flushCount_append, flushCount_map]
    simp [flushCount]
  · rw [hresult]
    simp [recordUtterance]

/-- C19 on a reply of seven words. -/
theorem uninterrupted_delivery_witness :
    sentTokens (onSpeechDetected (newLocals "call-1" 0) (some ⟨true, ["hello"]⟩) 1000
      (WebhookOutcome.responded (some ⟨some "a b c d e f g", none, none, none, "-"⟩)) none).2
      = (List.range (chunkCount ["a", "b", "c", "d", "e", "f", "g"].length)).map
          (chunkAt ["a", "b", "c", "d", "e", "f", "g"]) ∧
    flushCount (onSpeechDetected (newLocals "call-1" 0) (some ⟨true, ["hello"]⟩) 1000
      (WebhookOutcome.responded (some ⟨some "a b c d e f g", none, none, none, "-"⟩)) none).2
      = 1 :=
  ⟨(uninterrupted_delivery (newLocals "call-1" 0) "hello" [] 1000
      ⟨some "a b c d e f g", none, none, none, "-"⟩ ["a", "b", "c", "d", "e", "f", "g"]
      (by decide) (by decide)).1,
   (uninterrupted_delivery (newLocals "call-1" 0) "hello" [] 1000
      ⟨some "a b c d e f g", none, none, none, "-"⟩ ["a", "b", "c", "d", "e", "f", "g"]
      (by decide) (by decide)).2.2.2.2.2.2.2.1⟩

/-- The handler on a final utterance answered with a non-empty text and not
interrupted: every chunk of the text is sent, one flush follows, and the text is
logged as the assistant message. -/
theorem onSpeechDetected_uninterrupted (l : Locals) (transcript : String)
    (others : List String) (now : Int) (d : ResponseData) (hne : responseText d ≠ "") :
    onSpeechDetected l (some ⟨true, transcript :: others⟩) now
      (WebhookOutcome.responded (some d)) none =
      ({ recordUtterance l transcript now with
          messages := (recordUtterance l transcript now).messages ++
            [⟨Role.assistant, responseText d⟩]
          assistantResponse := "" },
        ([HostAction.reply,
          HostAction.webhookPost transcript (recordUtterance l transcript now).sessionId] ++
          (List.range (chunkCount (split (responseText d)).length)).map fun t =>
            HostAction.sendTtsTokens (chunkAt (split (responseText d)) t)) ++
          [HostAction.flushTtsTokens]) := by
  obtain ⟨_, hlow, hhigh, hnle⟩ :=
    chunkCount_bounds (split (responseText d)).length (split_length_pos _)
  have hdec : decide ((none : Option Nat) = some 0) = false := by simp
  have hrun : onSpeechDetected l (some ⟨true, transcript :: others⟩) now
      (WebhookOutcome.responded (some d)) none =
      deliverResponse d none (recordUtterance l transcript now)
        [HostAction.reply,
          HostAction.webhookPost transcript (recordUtterance l transcript now).sessionId] := by
    show deliverResponse d none
      (interruptDuring (decide ((none : Option Nat) = some 0))
        (recordUtterance l transcript now)) _ = _
    rw [hdec]
    rfl
  have hloop := deliver_uninterrupted (split (responseText d))
    (chunkCount (split (responseText d)).length) 0 (split (responseText d)).length
    { recordUtterance l transcript now with assistantResponse := responseText d }
    [HostAction.reply,
      HostAction.webhookPost transcript (recordUtterance l transcript now).sessionId]
    rfl (by rw [Nat.zero_add]; exact hhigh)
    (by
      intro t ht
      have : chunkSize * t ≤ chunkSize * (chunkCount (split (responseText d)).length - 1) :=
        Nat.mul_le_mul_left _ (by omega)
      omega)
    hnle
  rw [Nat.mul_zero, ← List.range_eq_range'] at hloop
  rw [hrun]
  unfold deliverResponse
  simp only [hne, if_false]
  rw [hloop]
  rfl

/-- C8 (amended): for a body without a reply field the text delivered is the first
non-empty one of its `message`, `text` and `response` fields, else its JSON text: when
nothing interrupts, the chunks sent are the chunks of that text, their words joined
give that text, and that text is logged; two bodies without a reply field for which
that value is the same are handled alike, whatever else they hold. -/
theorem no_reply_field_delivery (l : Locals) (transcript : String) (others : List String)
    (now : Int) (d d2 : ResponseData) (h : d.reply = none) (h2 : d2.reply = none)
    (hne : jsOr d.message (jsOr d.text (jsOr d.response d.json)) ≠ "") :
    sentTokens (onSpeechDetected l (some ⟨true, transcript :: others⟩) now
      (WebhookOutcome.responded (some d)) none).2 =
      (List.range (chunkCount
        (split (jsOr d.message (jsOr d.text (jsOr d.response d.json)))).length)).map
        (chunkAt (split (jsOr d.message (jsOr d.text (jsOr d.response d.json))))) ∧
    join ((List.range (chunkCount
        (split (jsOr d.message (jsOr d.text (jsOr d.response d.json)))).length)).flatMap
        (chunkWords (split (jsOr d.message (jsOr d.text (jsOr d.response d.json))))))
      = jsOr d.message (jsOr d.text (jsOr d.response d.json)) ∧
    (onSpeechDetected l (some ⟨true, transcript :: others⟩) now
      (WebhookOutcome.responded (some d)) none).1.messages =
      l.messages ++ [⟨Role.user, transcript⟩,
        ⟨Role.assistant, jsOr d.message (jsOr d.text (jsOr d.response d.json))⟩] ∧
    (jsOr d.message (jsOr d.text (jsOr d.response d.json)) =
        jsOr d2.message (jsOr d2.text (jsOr d2.response d2.json)) →
      ∀ (event : Option Speech) (interruptAfter : Option Nat),
        onSpeechDetected l event now (WebhookOutcome.responded (some d)) interruptAfter =
          onSpeechDetected l event now (WebhookOutcome.responded (some d2)) interruptAfter) := by
  have e1 : responseText d = jsOr d.message (jsOr d.text (jsOr d.response d.json)) := by
    unfold responseText
    rw [h]
    rfl
  have e2 : responseText d2 = jsOr d2.message (jsOr d2.text (jsOr d2.response d2.json)) := by
    unfold responseText
    rw [h2]
    rfl
  have hres := onSpeechDetected_uninterrupted l transcript others now d (by rw [e1]; exact hne)
  rw [e1] at hres
  obtain ⟨_, _, hhigh, _⟩ := chunkCount_bounds
    (split (jsOr d.message (jsOr d.text (jsOr d.response d.json)))).length (split_length_pos _)
  refine ⟨?_, ?_, ?_, ?_⟩
  · rw [hres]
    show sentTokens (_ ++ _) = _
    rw [sentTokens_append, sentTokens_append, sentTokens_map]
    simp [sentTokens]
  · rw [flatMap_chunkWords _ _ hhigh]
    exact join_split _
  · rw [hres]
    simp [recordUtterance]
  · intro hsame event interruptAfter
    cases event with
    | none => rfl
    | some speech =>
      obtain ⟨final, alternatives⟩ := speech
      cases final
      · rfl
      · cases alternatives with
        | nil => rfl
        | cons t ts => exact deliverResponse_congr d d2 _ _ _ (by rw [e1, e2, hsame])

/-- C8 (amended) on the body whose only field is `message` "A B". -/
theorem no_reply_field_delivery_witness :
    sentTokens (onSpeechDetected (newLocals "call-1" 0) (some ⟨true, ["hello"]⟩) 1000
      (WebhookOutcome.responded (some ⟨none, some "A B", none, none, "x"⟩)) none).2 =
      (List.range (chunkCount
        (split (jsOr (some "A B") (jsOr none (jsOr none "x")))).length)).map
        (chunkAt (split (jsOr (some "A B") (jsOr none (jsOr none "x"))))) ∧
    onSpeechDetected (newLocals "call-1" 0) (some ⟨true, ["hello"]⟩) 1000
      (WebhookOutcome.responded (some ⟨none, some "A B", none, none, "x"⟩)) (some 1) =
    onSpeechDetected (newLocals "call-1" 0) (some ⟨true, ["hello"]⟩) 1000
      (WebhookOutcome.responded (some ⟨none, some "A B", none, none, "y"⟩)) (some 1) :=
  ⟨(no_reply_field_delivery (newLocals "call-1" 0) "hello" [] 1000
      ⟨none, some "A B", none, none, "x"⟩ ⟨none, some "A B", none, none, "y"⟩
      rfl rfl (by decide)).1,
   (no_reply_field_delivery (newLocals "call-1" 0) "hello" [] 1000
      ⟨none, some "A B", none, none, "x"⟩ ⟨none, some "A B", none, none, "y"⟩
      rfl rfl (by decide)).2.2.2 (by decide) (some ⟨true, ["hello"]⟩) (some 1)⟩

end TdEngine
